import Mathlib

/-! # PCAN-Basic managed binding (`PCANBasicCLR.h`)

A shallow embedding of the C++/CLR binding header of the PCAN-Basic API:
its enumerations and constants, the marshalling declarations of its value
structures, the table of `DllImport` declarations, and the few managed
wrapper bodies the header contains.

The native library `PCANBasic.dll` is not part of the header.  It appears
here as a parameter: a record of state transformers, one per entry point.
Unsigned machine integers are natural numbers; the one place where the
header computes with them (`Length * SizeOf` in `GetValue`) reduces
explicitly modulo `2 ^ 32`.
-/

namespace Peak.Can.Basic

/-! ## Type definitions -/

/-- Underlying type of a PCAN hardware channel handle (`System::UInt16`). -/
abbrev TPCANHandle : Type := Nat

/-- Underlying type of a timestamp in microseconds (`System::UInt64`). -/
abbrev TPCANTimestampFD : Type := Nat

/-- Underlying type of a timestamp in microseconds (`System::UInt64`). -/
abbrev TPCANTimestampXL : Type := Nat

/-- Underlying type of a status word (`enum class TPCANStatus : UInt32`, a flags enumeration). -/
abbrev TPCANStatus : Type := Nat

/-- Underlying type of a parameter identifier (`enum class TPCANParameter : Byte`). -/
abbrev TPCANParameter : Type := Nat

/-- Underlying type of a Baud Rate Timing Register value (`enum class TPCANBaudrate : UInt16`). -/
abbrev TPCANBaudrate : Type := Nat

/-! ## Other constants -/

/-- Maximum length of the name of a device: 32 characters + terminator. -/
def MAX_LENGTH_HARDWARE_NAME : Nat := 33

/-- Maximum length of a version string: 255 characters + terminator. -/
def MAX_LENGTH_VERSION_STRING : Nat := 256

/-- Maximum amount of data bytes of a CAN-XL message. -/
def MAX_LENGTH_DATA_XL : Nat := 2048

/-! ## The enumerators of `TPCANStatus` -/

namespace TPCANStatus

def PCAN_ERROR_OK : TPCANStatus := 0x00000
def PCAN_ERROR_XMTFULL : TPCANStatus := 0x00001
def PCAN_ERROR_OVERRUN : TPCANStatus := 0x00002
def PCAN_ERROR_BUSLIGHT : TPCANStatus := 0x00004
def PCAN_ERROR_BUSHEAVY : TPCANStatus := 0x00008
def PCAN_ERROR_BUSWARNING : TPCANStatus := PCAN_ERROR_BUSHEAVY
def PCAN_ERROR_BUSPASSIVE : TPCANStatus := 0x40000
def PCAN_ERROR_BUSOFF : TPCANStatus := 0x00010
def PCAN_ERROR_ANYBUSERR : TPCANStatus :=
  PCAN_ERROR_BUSWARNING ||| PCAN_ERROR_BUSLIGHT ||| PCAN_ERROR_BUSHEAVY ||| PCAN_ERROR_BUSOFF
    ||| PCAN_ERROR_BUSPASSIVE
def PCAN_ERROR_QRCVEMPTY : TPCANStatus := 0x00020
def PCAN_ERROR_QOVERRUN : TPCANStatus := 0x00040
def PCAN_ERROR_QXMTFULL : TPCANStatus := 0x00080
def PCAN_ERROR_REGTEST : TPCANStatus := 0x00100
def PCAN_ERROR_NODRIVER : TPCANStatus := 0x00200
def PCAN_ERROR_HWINUSE : TPCANStatus := 0x00400
def PCAN_ERROR_NETINUSE : TPCANStatus := 0x00800
def PCAN_ERROR_ILLHW : TPCANStatus := 0x01400
def PCAN_ERROR_ILLNET : TPCANStatus := 0x01800
def PCAN_ERROR_ILLCLIENT : TPCANStatus := 0x01C00
def PCAN_ERROR_ILLHANDLE : TPCANStatus :=
  PCAN_ERROR_ILLHW ||| PCAN_ERROR_ILLNET ||| PCAN_ERROR_ILLCLIENT
def PCAN_ERROR_RESOURCE : TPCANStatus := 0x02000
def PCAN_ERROR_ILLPARAMTYPE : TPCANStatus := 0x04000
def PCAN_ERROR_ILLPARAMVAL : TPCANStatus := 0x08000
def PCAN_ERROR_UNKNOWN : TPCANStatus := 0x10000
def PCAN_ERROR_ILLDATA : TPCANStatus := 0x20000
def PCAN_ERROR_ILLMODE : TPCANStatus := 0x80000
def PCAN_ERROR_CAUTION : TPCANStatus := 0x2000000
def PCAN_ERROR_INITIALIZE : TPCANStatus := 0x4000000
def PCAN_ERROR_ILLOPERATION : TPCANStatus := 0x8000000

end TPCANStatus

/-- The names declared by `enum class TPCANStatus`, in declaration order. -/
inductive TPCANStatusName
  | PCAN_ERROR_OK
  | PCAN_ERROR_XMTFULL
  | PCAN_ERROR_OVERRUN
  | PCAN_ERROR_BUSLIGHT
  | PCAN_ERROR_BUSHEAVY
  | PCAN_ERROR_BUSWARNING
  | PCAN_ERROR_BUSPASSIVE
  | PCAN_ERROR_BUSOFF
  | PCAN_ERROR_ANYBUSERR
  | PCAN_ERROR_QRCVEMPTY
  | PCAN_ERROR_QOVERRUN
  | PCAN_ERROR_QXMTFULL
  | PCAN_ERROR_REGTEST
  | PCAN_ERROR_NODRIVER
  | PCAN_ERROR_HWINUSE
  | PCAN_ERROR_NETINUSE
  | PCAN_ERROR_ILLHW
  | PCAN_ERROR_ILLNET
  | PCAN_ERROR_ILLCLIENT
  | PCAN_ERROR_ILLHANDLE
  | PCAN_ERROR_RESOURCE
  | PCAN_ERROR_ILLPARAMTYPE
  | PCAN_ERROR_ILLPARAMVAL
  | PCAN_ERROR_UNKNOWN
  | PCAN_ERROR_ILLDATA
  | PCAN_ERROR_ILLMODE
  | PCAN_ERROR_CAUTION
  | PCAN_ERROR_INITIALIZE
  | PCAN_ERROR_ILLOPERATION
  deriving DecidableEq, Repr

/-- The numeric value the enumeration gives to each of its names. -/
def TPCANStatusName.value : TPCANStatusName → TPCANStatus
  | .PCAN_ERROR_OK => TPCANStatus.PCAN_ERROR_OK
  | .PCAN_ERROR_XMTFULL => TPCANStatus.PCAN_ERROR_XMTFULL
  | .PCAN_ERROR_OVERRUN => TPCANStatus.PCAN_ERROR_OVERRUN
  | .PCAN_ERROR_BUSLIGHT => TPCANStatus.PCAN_ERROR_BUSLIGHT
  | .PCAN_ERROR_BUSHEAVY => TPCANStatus.PCAN_ERROR_BUSHEAVY
  | .PCAN_ERROR_BUSWARNING => TPCANStatus.PCAN_ERROR_BUSWARNING
  | .PCAN_ERROR_BUSPASSIVE => TPCANStatus.PCAN_ERROR_BUSPASSIVE
  | .PCAN_ERROR_BUSOFF => TPCANStatus.PCAN_ERROR_BUSOFF
  | .PCAN_ERROR_ANYBUSERR => TPCANStatus.PCAN_ERROR_ANYBUSERR
  | .PCAN_ERROR_QRCVEMPTY => TPCANStatus.PCAN_ERROR_QRCVEMPTY
  | .PCAN_ERROR_QOVERRUN => TPCANStatus.PCAN_ERROR_QOVERRUN
  | .PCAN_ERROR_QXMTFULL => TPCANStatus.PCAN_ERROR_QXMTFULL
  | .PCAN_ERROR_REGTEST => TPCANStatus.PCAN_ERROR_REGTEST
  | .PCAN_ERROR_NODRIVER => TPCANStatus.PCAN_ERROR_NODRIVER
  | .PCAN_ERROR_HWINUSE => TPCANStatus.PCAN_ERROR_HWINUSE
  | .PCAN_ERROR_NETINUSE => TPCANStatus.PCAN_ERROR_NETINUSE
  | .PCAN_ERROR_ILLHW => TPCANStatus.PCAN_ERROR_ILLHW
  | .PCAN_ERROR_ILLNET => TPCANStatus.PCAN_ERROR_ILLNET
  | .PCAN_ERROR_ILLCLIENT => TPCANStatus.PCAN_ERROR_ILLCLIENT
  | .PCAN_ERROR_ILLHANDLE => TPCANStatus.PCAN_ERROR_ILLHANDLE
  | .PCAN_ERROR_RESOURCE => TPCANStatus.PCAN_ERROR_RESOURCE
  | .PCAN_ERROR_ILLPARAMTYPE => TPCANStatus.PCAN_ERROR_ILLPARAMTYPE
  | .PCAN_ERROR_ILLPARAMVAL => TPCANStatus.PCAN_ERROR_ILLPARAMVAL
  | .PCAN_ERROR_UNKNOWN => TPCANStatus.PCAN_ERROR_UNKNOWN
  | .PCAN_ERROR_ILLDATA => TPCANStatus.PCAN_ERROR_ILLDATA
  | .PCAN_ERROR_ILLMODE => TPCANStatus.PCAN_ERROR_ILLMODE
  | .PCAN_ERROR_CAUTION => TPCANStatus.PCAN_ERROR_CAUTION
  | .PCAN_ERROR_INITIALIZE => TPCANStatus.PCAN_ERROR_INITIALIZE
  | .PCAN_ERROR_ILLOPERATION => TPCANStatus.PCAN_ERROR_ILLOPERATION

/-! ## Structures -/

/-- A PCAN message (`value struct TPCANMsg`). `DATA` is the managed byte array. -/
structure TPCANMsg where
  ID : Nat
  MSGTYPE : Nat
  LEN : Nat
  DATA : List Nat
  deriving DecidableEq, Repr, Inhabited

/-- A timestamp of a received PCAN message (`value struct TPCANTimestamp`). -/
structure TPCANTimestamp where
  millis : Nat
  millis_overflow : Nat
  micros : Nat
  deriving DecidableEq, Repr, Inhabited

/-- A PCAN message from a FD capable hardware (`value struct TPCANMsgFD`). -/
structure TPCANMsgFD where
  ID : Nat
  MSGTYPE : Nat
  DLC : Nat
  DATA : List Nat
  deriving DecidableEq, Repr, Inhabited

/-- A PCAN message from a XL capable hardware (`value struct TPCANMsgXL`). -/
structure TPCANMsgXL where
  PID : Nat
  VCID : Nat
  MSGTYPE : Nat
  DLC : Nat
  SDT : Nat
  AF : Nat
  RRS : Nat
  SEC : Nat
  DATA : List Nat
  deriving DecidableEq, Repr, Inhabited

/-- Describes an available PCAN channel (`value struct TPCANChannelInformation`). -/
structure TPCANChannelInformation where
  channel_handle : TPCANHandle
  device_type : Nat
  controller_number : Nat
  device_features : Nat
  device_name : String
  device_id : Nat
  channel_condition : Nat
  deriving DecidableEq, Repr, Inhabited

/-! ## Marshalling declarations of the structures -/

/-- How a structure member is laid out in unmanaged memory: the `MarshalAs`
attribute of the member, or the unmanaged type its managed type defaults to. -/
inductive UnmanagedType
  | U1
  | U2
  | U4
  | U8
  | ByValArray (SizeConst : Nat)
  | ByValTStr (SizeConst : Nat)
  deriving DecidableEq, Repr

/-- Number of bytes a member occupies in unmanaged memory.  A `ByValArray` of
`Byte` occupies `SizeConst` bytes, a `ByValTStr` occupies `SizeConst`
one-byte characters. -/
def UnmanagedType.size : UnmanagedType → Nat
  | .U1 => 1
  | .U2 => 2
  | .U4 => 4
  | .U8 => 8
  | .ByValArray SizeConst => SizeConst
  | .ByValTStr SizeConst => SizeConst

/-- One member of a value structure: its name and its unmanaged type. -/
structure FieldDecl where
  name : String
  type : UnmanagedType
  deriving DecidableEq, Repr

/-- The unmanaged size of the member called `name`, when the structure has one. -/
def fieldSize (fields : List FieldDecl) (name : String) : Option Nat :=
  (fields.find? (fun f => f.name == name)).map (fun f => f.type.size)

/-- Members of `TPCANMsg`, in declaration order. -/
def TPCANMsg.fields : List FieldDecl :=
  [⟨"ID", .U4⟩, ⟨"MSGTYPE", .U1⟩, ⟨"LEN", .U1⟩, ⟨"DATA", .ByValArray 8⟩]

/-- Members of `TPCANMsgFD`, in declaration order. -/
def TPCANMsgFD.fields : List FieldDecl :=
  [⟨"ID", .U4⟩, ⟨"MSGTYPE", .U1⟩, ⟨"DLC", .U1⟩, ⟨"DATA", .ByValArray 64⟩]

/-- Members of `TPCANMsgXL`, in declaration order. -/
def TPCANMsgXL.fields : List FieldDecl :=
  [⟨"PID", .U4⟩, ⟨"VCID", .U1⟩, ⟨"MSGTYPE", .U2⟩, ⟨"DLC", .U2⟩, ⟨"SDT", .U1⟩, ⟨"AF", .U4⟩,
    ⟨"RRS", .U1⟩, ⟨"SEC", .U1⟩, ⟨"DATA", .ByValArray 2048⟩]

/-- Unmanaged size of the payload region of a classic message.  The marshaller
reads it off the declaration of `DATA`; no member of the value takes part. -/
def TPCANMsg.payloadSize (_m : TPCANMsg) : Option Nat :=
  fieldSize TPCANMsg.fields "DATA"

/-- Unmanaged size of the payload region of a FD message. -/
def TPCANMsgFD.payloadSize (_m : TPCANMsgFD) : Option Nat :=
  fieldSize TPCANMsgFD.fields "DATA"

/-- Unmanaged size of the payload region of a XL message. -/
def TPCANMsgXL.payloadSize (_m : TPCANMsgXL) : Option Nat :=
  fieldSize TPCANMsgXL.fields "DATA"

/-! ## The native library -/

/-- What a managed caller hands to an unmanaged pointer parameter.  A tracking
reference (`T %Buffer`) is marshalled as the address of a buffer holding the
value; an `IntPtr` is passed as the pointer value it holds, `0` being `NULL`. -/
inductive Pointer (τ : Type)
  | byRef (pointee : τ)
  | intPtr (value : Nat)
  deriving DecidableEq, Repr

/-- The buffer kinds the managed overloads bind to the `Buffer` parameter of
`CAN_GetValue` and `CAN_SetValue`.  A managed array reference may be null. -/
inductive ValueBuffer
  | stringBuilder (text : String)
  | lpStr (text : String)
  | uint32 (n : Nat)
  | uint64 (n : Nat)
  | channels (ChannelBuffer : Option (Array TPCANChannelInformation))

/-- The entry points of `PCANBasic.dll` used by the managed wrapper bodies,
each a transformer of the driver state `σ`.  Buffers passed by reference come
back with the content the call left in them. -/
structure NativeLibrary (σ : Type) where
  CAN_Initialize : TPCANHandle → TPCANBaudrate → Nat → Nat → Nat → σ → TPCANStatus × σ
  CAN_Read : TPCANHandle → TPCANMsg → Pointer TPCANTimestamp → σ →
    TPCANStatus × TPCANMsg × Pointer TPCANTimestamp × σ
  CAN_ReadFD : TPCANHandle → TPCANMsgFD → Pointer TPCANTimestampFD → σ →
    TPCANStatus × TPCANMsgFD × Pointer TPCANTimestampFD × σ
  CAN_ReadXL : TPCANHandle → TPCANMsgXL → Pointer TPCANTimestampXL → σ →
    TPCANStatus × TPCANMsgXL × Pointer TPCANTimestampXL × σ
  CAN_GetValue : TPCANHandle → TPCANParameter → ValueBuffer → Nat → σ →
    TPCANStatus × ValueBuffer × σ
  CAN_SetValue : TPCANHandle → TPCANParameter → ValueBuffer → Nat → σ →
    TPCANStatus × ValueBuffer × σ

/-- One call into the native library: the entry point and the arguments it received. -/
inductive NativeCall
  | CAN_Initialize (Channel : TPCANHandle) (Btr0Btr1 : TPCANBaudrate)
      (deprecated1 deprecated2 deprecated3 : Nat)
  | CAN_Read (Channel : TPCANHandle) (MessageBuffer : TPCANMsg)
      (TimestampBuffer : Pointer TPCANTimestamp)
  | CAN_ReadFD (Channel : TPCANHandle) (MessageBuffer : TPCANMsgFD)
      (TimestampBuffer : Pointer TPCANTimestampFD)
  | CAN_ReadXL (Channel : TPCANHandle) (MessageBuffer : TPCANMsgXL)
      (TimestampBuffer : Pointer TPCANTimestampXL)
  | CAN_GetValue (Channel : TPCANHandle) (Parameter : TPCANParameter) (Buffer : ValueBuffer)
      (BufferLength : Nat)
  | CAN_SetValue (Channel : TPCANHandle) (Parameter : TPCANParameter) (Buffer : ValueBuffer)
      (BufferLength : Nat)

/-- The library `N` with a journal: every entry point behaves as in `N` and
appends the call it received to the list kept beside the driver state. -/
def NativeLibrary.traced {σ : Type} (N : NativeLibrary σ) : NativeLibrary (σ × List NativeCall) where
  CAN_Initialize Channel Btr0Btr1 d1 d2 d3 st :=
    let r := N.CAN_Initialize Channel Btr0Btr1 d1 d2 d3 st.1
    (r.1, (r.2, st.2 ++ [NativeCall.CAN_Initialize Channel Btr0Btr1 d1 d2 d3]))
  CAN_Read Channel msg ts st :=
    let r := N.CAN_Read Channel msg ts st.1
    (r.1, r.2.1, r.2.2.1, (r.2.2.2, st.2 ++ [NativeCall.CAN_Read Channel msg ts]))
  CAN_ReadFD Channel msg ts st :=
    let r := N.CAN_ReadFD Channel msg ts st.1
    (r.1, r.2.1, r.2.2.1, (r.2.2.2, st.2 ++ [NativeCall.CAN_ReadFD Channel msg ts]))
  CAN_ReadXL Channel msg ts st :=
    let r := N.CAN_ReadXL Channel msg ts st.1
    (r.1, r.2.1, r.2.2.1, (r.2.2.2, st.2 ++ [NativeCall.CAN_ReadXL Channel msg ts]))
  CAN_GetValue Channel Parameter buf len st :=
    let r := N.CAN_GetValue Channel Parameter buf len st.1
    (r.1, r.2.1, (r.2.2, st.2 ++ [NativeCall.CAN_GetValue Channel Parameter buf len]))
  CAN_SetValue Channel Parameter buf len st :=
    let r := N.CAN_SetValue Channel Parameter buf len st.1
    (r.1, r.2.1, (r.2.2, st.2 ++ [NativeCall.CAN_SetValue Channel Parameter buf len]))

/-- A driver without hardware, used as a concrete instance: every entry point
answers `PCAN_ERROR_OK` and leaves the buffers as it found them. -/
def NativeLibrary.idle : NativeLibrary Unit where
  CAN_Initialize _ _ _ _ _ st := (TPCANStatus.PCAN_ERROR_OK, st)
  CAN_Read _ msg ts st := (TPCANStatus.PCAN_ERROR_OK, msg, ts, st)
  CAN_ReadFD _ msg ts st := (TPCANStatus.PCAN_ERROR_OK, msg, ts, st)
  CAN_ReadXL _ msg ts st := (TPCANStatus.PCAN_ERROR_OK, msg, ts, st)
  CAN_GetValue _ _ buf _ st := (TPCANStatus.PCAN_ERROR_OK, buf, st)
  CAN_SetValue _ _ buf _ st := (TPCANStatus.PCAN_ERROR_OK, buf, st)

/-! ## Managed runtime operations used by the wrapper bodies -/

/-- Exceptions the managed runtime raises inside a wrapper body. -/
inductive ManagedException
  | NullReferenceException
  deriving DecidableEq, Repr

/-- The property `array->Length`: the element count as an `int`, or a
`NullReferenceException` when the reference is null. -/
def arrayLength {α : Type} (a : Option (Array α)) : Except ManagedException Int :=
  match a with
  | none => .error .NullReferenceException
  | some xs => .ok (xs.size : Int)

/-- Multiplication of two `int` values: the product reduced to the signed 32-bit range. -/
def mulInt32 (x y : Int) : Int :=
  (x * y + 2 ^ 31) % 2 ^ 32 - 2 ^ 31

/-- Conversion of an `int` to `UInt32`: the value reduced modulo `2 ^ 32`. -/
def toUInt32 (x : Int) : Nat :=
  (x % 2 ^ 32).toNat

/-- The constant `IntPtr::Zero`. -/
def IntPtr.Zero : Nat := 0

/-! ## The `PCANBasic` class: external declarations -/

/-- One `[DllImport]` declaration of the class: the managed method name, the
library and entry point of the attribute, the access level in force at the
declaration, and the managed parameter types. -/
structure DllImport where
  method : String
  dllName : String
  EntryPoint : String
  isPublic : Bool
  parameters : List String
  deriving DecidableEq, Repr

namespace PCANBasic

/-- Every `[DllImport]` declaration of `PCANBasic`, in source order. -/
def dllImports : List DllImport :=
  [ ⟨"Initialize", "PCANBasic.dll", "CAN_Initialize", true,
      ["TPCANHandle", "TPCANBaudrate", "Byte", "UInt32", "UInt16"]⟩,
    ⟨"InitializeFD", "PCANBasic.dll", "CAN_InitializeFD", true, ["TPCANHandle", "TPCANBitrateFD"]⟩,
    ⟨"InitializeXL", "PCANBasic.dll", "CAN_InitializeXL", true, ["TPCANHandle", "TPCANBitrateXL"]⟩,
    ⟨"Uninitialize", "PCANBasic.dll", "CAN_Uninitialize", true, ["TPCANHandle"]⟩,
    ⟨"Reset", "PCANBasic.dll", "CAN_Reset", true, ["TPCANHandle"]⟩,
    ⟨"GetStatus", "PCANBasic.dll", "CAN_GetStatus", true, ["TPCANHandle"]⟩,
    ⟨"Read", "PCANBasic.dll", "CAN_Read", true, ["TPCANHandle", "TPCANMsg%", "TPCANTimestamp%"]⟩,
    ⟨"Read", "PCANBasic.dll", "CAN_Read", false, ["TPCANHandle", "TPCANMsg%", "IntPtr"]⟩,
    ⟨"ReadFD", "PCANBasic.dll", "CAN_ReadFD", true,
      ["TPCANHandle", "TPCANMsgFD%", "TPCANTimestampFD%"]⟩,
    ⟨"ReadFD", "PCANBasic.dll", "CAN_ReadFD", false, ["TPCANHandle", "TPCANMsgFD%", "IntPtr"]⟩,
    ⟨"ReadXL", "PCANBasic.dll", "CAN_ReadXL", true,
      ["TPCANHandle", "TPCANMsgXL%", "TPCANTimestampXL%"]⟩,
    ⟨"ReadXL", "PCANBasic.dll", "CAN_ReadXL", false, ["TPCANHandle", "TPCANMsgXL%", "IntPtr"]⟩,
    ⟨"Write", "PCANBasic.dll", "CAN_Write", true, ["TPCANHandle", "TPCANMsg%"]⟩,
    ⟨"WriteFD", "PCANBasic.dll", "CAN_WriteFD", true, ["TPCANHandle", "TPCANMsgFD%"]⟩,
    ⟨"WriteXL", "PCANBasic.dll", "CAN_WriteXL", true, ["TPCANHandle", "TPCANMsgXL%"]⟩,
    ⟨"FilterMessages", "PCANBasic.dll", "CAN_FilterMessages", true,
      ["TPCANHandle", "UInt32", "UInt32", "TPCANMode"]⟩,
    ⟨"GetValue", "PCANBasic.dll", "CAN_GetValue", true,
      ["TPCANHandle", "TPCANParameter", "StringBuilder^", "UInt32"]⟩,
    ⟨"GetValue", "PCANBasic.dll", "CAN_GetValue", true,
      ["TPCANHandle", "TPCANParameter", "UInt32%", "UInt32"]⟩,
    ⟨"GetValue", "PCANBasic.dll", "CAN_GetValue", true,
      ["TPCANHandle", "TPCANParameter", "UInt64%", "UInt32"]⟩,
    ⟨"GetValue", "PCANBasic.dll", "CAN_GetValue", false,
      ["TPCANHandle", "TPCANParameter", "array<TPCANChannelInformation>^", "UInt32"]⟩,
    ⟨"SetValue", "PCANBasic.dll", "CAN_SetValue", true,
      ["TPCANHandle", "TPCANParameter", "UInt32%", "UInt32"]⟩,
    ⟨"SetValue", "PCANBasic.dll", "CAN_SetValue", true,
      ["TPCANHandle", "TPCANParameter", "UInt64%", "UInt32"]⟩,
    ⟨"SetValue", "PCANBasic.dll", "CAN_SetValue", true,
      ["TPCANHandle", "TPCANParameter", "String^", "UInt32"]⟩,
    ⟨"GetErrorText", "PCANBasic.dll", "CAN_GetErrorText", true,
      ["TPCANStatus", "UInt16", "StringBuilder^"]⟩,
    ⟨"LookUpChannel", "PCANBasic.dll", "CAN_LookUpChannel", true, ["String^", "TPCANHandle%"]⟩ ]

/-- The managed method names that carry a `[DllImport]` declaration, in order of first appearance. -/
def importedMethods : List String :=
  ["Initialize", "InitializeFD", "InitializeXL", "Uninitialize", "Reset", "GetStatus", "Read",
    "ReadFD", "ReadXL", "Write", "WriteFD", "WriteXL", "FilterMessages", "GetValue", "SetValue",
    "GetErrorText", "LookUpChannel"]

/-! ## The `PCANBasic` class: overloads bound to entry points

Lean has no overloading: an overload is named after the method and the
parameter that tells it apart. -/

variable {σ : Type}

/-- The external overload `Initialize(Channel, Btr0Btr1, deprecated1, deprecated2, deprecated3)`. -/
def Initialize_deprecated (N : NativeLibrary σ) (Channel : TPCANHandle) (Btr0Btr1 : TPCANBaudrate)
    (deprecated1 deprecated2 deprecated3 : Nat) (s : σ) : TPCANStatus × σ :=
  N.CAN_Initialize Channel Btr0Btr1 deprecated1 deprecated2 deprecated3 s

/-- The external private overload `Read(Channel, MessageBuffer, IntPtr bufferPointer)`. -/
def Read_bufferPointer (N : NativeLibrary σ) (Channel : TPCANHandle) (MessageBuffer : TPCANMsg)
    (bufferPointer : Nat) (s : σ) : TPCANStatus × TPCANMsg × Pointer TPCANTimestamp × σ :=
  N.CAN_Read Channel MessageBuffer (.intPtr bufferPointer) s

/-- The external public overload `Read(Channel, MessageBuffer, TimestampBuffer)`. -/
def Read_TimestampBuffer (N : NativeLibrary σ) (Channel : TPCANHandle) (MessageBuffer : TPCANMsg)
    (TimestampBuffer : TPCANTimestamp) (s : σ) :
    TPCANStatus × TPCANMsg × Pointer TPCANTimestamp × σ :=
  N.CAN_Read Channel MessageBuffer (.byRef TimestampBuffer) s

/-- The external private overload `ReadFD(Channel, MessageBuffer, IntPtr bufferPointer)`. -/
def ReadFD_bufferPointer (N : NativeLibrary σ) (Channel : TPCANHandle)
    (MessageBuffer : TPCANMsgFD) (bufferPointer : Nat) (s : σ) :
    TPCANStatus × TPCANMsgFD × Pointer TPCANTimestampFD × σ :=
  N.CAN_ReadFD Channel MessageBuffer (.intPtr bufferPointer) s

/-- The external public overload `ReadFD(Channel, MessageBuffer, TimestampBuffer)`. -/
def ReadFD_TimestampBuffer (N : NativeLibrary σ) (Channel : TPCANHandle)
    (MessageBuffer : TPCANMsgFD) (TimestampBuffer : TPCANTimestampFD) (s : σ) :
    TPCANStatus × TPCANMsgFD × Pointer TPCANTimestampFD × σ :=
  N.CAN_ReadFD Channel MessageBuffer (.byRef TimestampBuffer) s

/-- The external private overload `ReadXL(Channel, MessageBuffer, IntPtr bufferPointer)`. -/
def ReadXL_bufferPointer (N : NativeLibrary σ) (Channel : TPCANHandle)
    (MessageBuffer : TPCANMsgXL) (bufferPointer : Nat) (s : σ) :
    TPCANStatus × TPCANMsgXL × Pointer TPCANTimestampXL × σ :=
  N.CAN_ReadXL Channel MessageBuffer (.intPtr bufferPointer) s

/-- The external public overload `ReadXL(Channel, MessageBuffer, TimestampBuffer)`. -/
def ReadXL_TimestampBuffer (N : NativeLibrary σ) (Channel : TPCANHandle)
    (MessageBuffer : TPCANMsgXL) (TimestampBuffer : TPCANTimestampXL) (s : σ) :
    TPCANStatus × TPCANMsgXL × Pointer TPCANTimestampXL × σ :=
  N.CAN_ReadXL Channel MessageBuffer (.byRef TimestampBuffer) s

/-- The external private overload `GetValue(Channel, Parameter, ChannelBuffer, BufferLength)`. -/
def GetValue_ChannelBuffer (N : NativeLibrary σ) (Channel : TPCANHandle)
    (Parameter : TPCANParameter) (ChannelBuffer : Option (Array TPCANChannelInformation))
    (BufferLength : Nat) (s : σ) : TPCANStatus × ValueBuffer × σ :=
  N.CAN_GetValue Channel Parameter (.channels ChannelBuffer) BufferLength s

/-- The external overload `GetValue(Channel, Parameter, StringBuffer, BufferLength)`. -/
def GetValue_StringBuffer (N : NativeLibrary σ) (Channel : TPCANHandle)
    (Parameter : TPCANParameter) (StringBuffer : String) (BufferLength : Nat) (s : σ) :
    TPCANStatus × ValueBuffer × σ :=
  N.CAN_GetValue Channel Parameter (.stringBuilder StringBuffer) BufferLength s

/-- The external overload `GetValue(Channel, Parameter, UInt32 %NumericBuffer, BufferLength)`. -/
def GetValue_UInt32 (N : NativeLibrary σ) (Channel : TPCANHandle) (Parameter : TPCANParameter)
    (NumericBuffer : Nat) (BufferLength : Nat) (s : σ) : TPCANStatus × ValueBuffer × σ :=
  N.CAN_GetValue Channel Parameter (.uint32 NumericBuffer) BufferLength s

/-- The external overload `GetValue(Channel, Parameter, UInt64 %NumericBuffer, BufferLength)`. -/
def GetValue_UInt64 (N : NativeLibrary σ) (Channel : TPCANHandle) (Parameter : TPCANParameter)
    (NumericBuffer : Nat) (BufferLength : Nat) (s : σ) : TPCANStatus × ValueBuffer × σ :=
  N.CAN_GetValue Channel Parameter (.uint64 NumericBuffer) BufferLength s

/-- The external overload `SetValue(Channel, Parameter, UInt32% NumericBuffer, BufferLength)`. -/
def SetValue_UInt32 (N : NativeLibrary σ) (Channel : TPCANHandle) (Parameter : TPCANParameter)
    (NumericBuffer : Nat) (BufferLength : Nat) (s : σ) : TPCANStatus × ValueBuffer × σ :=
  N.CAN_SetValue Channel Parameter (.uint32 NumericBuffer) BufferLength s

/-- The external overload `SetValue(Channel, Parameter, UInt64% NumericBuffer, BufferLength)`. -/
def SetValue_UInt64 (N : NativeLibrary σ) (Channel : TPCANHandle) (Parameter : TPCANParameter)
    (NumericBuffer : Nat) (BufferLength : Nat) (s : σ) : TPCANStatus × ValueBuffer × σ :=
  N.CAN_SetValue Channel Parameter (.uint64 NumericBuffer) BufferLength s

/-- The external overload `SetValue(Channel, Parameter, String^ StringBuffer, BufferLength)`. -/
def SetValue_StringBuffer (N : NativeLibrary σ) (Channel : TPCANHandle)
    (Parameter : TPCANParameter) (StringBuffer : String) (BufferLength : Nat) (s : σ) :
    TPCANStatus × ValueBuffer × σ :=
  N.CAN_SetValue Channel Parameter (.lpStr StringBuffer) BufferLength s

/-! ## The `PCANBasic` class: wrapper bodies -/

/-- The wrapper `Initialize(Channel, Btr0Btr1)`:
`return Initialize(Channel, Btr0Btr1, 0, 0, 0);` -/
def Initialize (N : NativeLibrary σ) (Channel : TPCANHandle) (Btr0Btr1 : TPCANBaudrate) (s : σ) :
    TPCANStatus × σ :=
  Initialize_deprecated N Channel Btr0Btr1 0 0 0 s

/-- The wrapper `Read(Channel, MessageBuffer)`:
`return Read(Channel, MessageBuffer, IntPtr::Zero);`
The result is the status, the message buffer after the call, and the driver state. -/
def Read (N : NativeLibrary σ) (Channel : TPCANHandle) (MessageBuffer : TPCANMsg) (s : σ) :
    TPCANStatus × TPCANMsg × σ :=
  let r := Read_bufferPointer N Channel MessageBuffer IntPtr.Zero s
  (r.1, r.2.1, r.2.2.2)

/-- The wrapper `ReadFD(Channel, MessageBuffer)`:
`return ReadFD(Channel, MessageBuffer, IntPtr::Zero);` -/
def ReadFD (N : NativeLibrary σ) (Channel : TPCANHandle) (MessageBuffer : TPCANMsgFD) (s : σ) :
    TPCANStatus × TPCANMsgFD × σ :=
  let r := ReadFD_bufferPointer N Channel MessageBuffer IntPtr.Zero s
  (r.1, r.2.1, r.2.2.2)

/-- The wrapper `ReadXL(Channel, MessageBuffer)`:
`return ReadXL(Channel, MessageBuffer, IntPtr::Zero);` -/
def ReadXL (N : NativeLibrary σ) (Channel : TPCANHandle) (MessageBuffer : TPCANMsgXL) (s : σ) :
    TPCANStatus × TPCANMsgXL × σ :=
  let r := ReadXL_bufferPointer N Channel MessageBuffer IntPtr.Zero s
  (r.1, r.2.1, r.2.2.2)

/-- The wrapper `GetValue(Channel, Parameter, ChannelsBuffer)`:
```
if(ChannelsBuffer == nullptr)
    return TPCANStatus::PCAN_ERROR_ILLPARAMVAL;
return GetValue(Channel, Parameter, ChannelsBuffer,
    ChannelsBuffer->Length * Marshal::SizeOf(TPCANChannelInformation::typeid));
```
`sizeOf` is the `int` that `Marshal::SizeOf` returns for the structure.  The
product is an `int` product, converted to the `UInt32` of `BufferLength`. -/
def GetValue (N : NativeLibrary σ) (sizeOf : Int) (Channel : TPCANHandle)
    (Parameter : TPCANParameter) (ChannelsBuffer : Option (Array TPCANChannelInformation))
    (s : σ) : Except ManagedException (TPCANStatus × ValueBuffer × σ) :=
  if ChannelsBuffer.isNone then
    .ok (TPCANStatus.PCAN_ERROR_ILLPARAMVAL, .channels ChannelsBuffer, s)
  else do
    let Length ← arrayLength ChannelsBuffer
    .ok (GetValue_ChannelBuffer N Channel Parameter ChannelsBuffer
      (toUInt32 (mulInt32 Length sizeOf)) s)

end PCANBasic

/-! ## More constants -/

/-- Maximum value for a standard CAN ID of a CAN 2.0A/B / FD message. -/
def MAX_VALUE_STANDARD_ID : Nat := 0x7FF

/-- Maximum value for an extended CAN ID of a CAN 2.0A/B / FD message. -/
def MAX_VALUE_EXTENDED_ID : Nat := 0x1FFFFFFF

/-- Width of the identifier of a CAN Standard Frame, from the summary of
`PCAN_MESSAGE_STANDARD`: "(11-bit identifier)". -/
def STANDARD_ID_BITS : Nat := 11

/-- Width of the identifier of a CAN Extended Frame, from the summary of
`PCAN_MESSAGE_EXTENDED`: "(29-bit identifier)". -/
def EXTENDED_ID_BITS : Nat := 29

/-! ## The enumerators of `TPCANParameter` -/

namespace TPCANParameter

def PCAN_DEVICE_ID : TPCANParameter := 1
def PCAN_5VOLTS_POWER : TPCANParameter := 2
def PCAN_RECEIVE_EVENT : TPCANParameter := 3
def PCAN_MESSAGE_FILTER : TPCANParameter := 4
def PCAN_API_VERSION : TPCANParameter := 5
def PCAN_CHANNEL_VERSION : TPCANParameter := 6
def PCAN_BUSOFF_AUTORESET : TPCANParameter := 7
def PCAN_LISTEN_ONLY : TPCANParameter := 8
def PCAN_LOG_LOCATION : TPCANParameter := 9
def PCAN_LOG_STATUS : TPCANParameter := 10
def PCAN_LOG_CONFIGURE : TPCANParameter := 11
def PCAN_LOG_TEXT : TPCANParameter := 12
def PCAN_CHANNEL_CONDITION : TPCANParameter := 13
def PCAN_HARDWARE_NAME : TPCANParameter := 14
def PCAN_RECEIVE_STATUS : TPCANParameter := 15
def PCAN_CONTROLLER_NUMBER : TPCANParameter := 16
def PCAN_TRACE_LOCATION : TPCANParameter := 17
def PCAN_TRACE_STATUS : TPCANParameter := 18
def PCAN_TRACE_SIZE : TPCANParameter := 19
def PCAN_TRACE_CONFIGURE : TPCANParameter := 20
def PCAN_CHANNEL_IDENTIFYING : TPCANParameter := 21
def PCAN_CHANNEL_FEATURES : TPCANParameter := 22
def PCAN_BITRATE_ADAPTING : TPCANParameter := 23
def PCAN_BITRATE_INFO_BTR : TPCANParameter := 24
def PCAN_BITRATE_INFO : TPCANParameter := PCAN_BITRATE_INFO_BTR
def PCAN_BITRATE_INFO_FD : TPCANParameter := 25
def PCAN_BUSSPEED_NOMINAL : TPCANParameter := 26
def PCAN_BUSSPEED_FD : TPCANParameter := 27
def PCAN_BUSSPEED_DATA : TPCANParameter := PCAN_BUSSPEED_FD
def PCAN_IP_ADDRESS : TPCANParameter := 28
def PCAN_LAN_SERVICE_STATUS : TPCANParameter := 29
def PCAN_ALLOW_STATUS_FRAMES : TPCANParameter := 30
def PCAN_ALLOW_RTR_FRAMES : TPCANParameter := 31
def PCAN_ALLOW_ERROR_FRAMES : TPCANParameter := 32
def PCAN_INTERFRAME_DELAY : TPCANParameter := 33
def PCAN_ACCEPTANCE_FILTER_11BIT : TPCANParameter := 34
def PCAN_ACCEPTANCE_FILTER_29BIT : TPCANParameter := 35
def PCAN_IO_DIGITAL_CONFIGURATION : TPCANParameter := 36
def PCAN_IO_DIGITAL_VALUE : TPCANParameter := 37
def PCAN_IO_DIGITAL_SET : TPCANParameter := 38
def PCAN_IO_DIGITAL_CLEAR : TPCANParameter := 39
def PCAN_IO_ANALOG_VALUE : TPCANParameter := 40
def PCAN_FIRMWARE_VERSION : TPCANParameter := 41
def PCAN_ATTACHED_CHANNELS_COUNT : TPCANParameter := 42
def PCAN_ATTACHED_CHANNELS : TPCANParameter := 43
def PCAN_ALLOW_ECHO_FRAMES : TPCANParameter := 44
def PCAN_DEVICE_PART_NUMBER : TPCANParameter := 45
def PCAN_HARD_RESET_STATUS : TPCANParameter := 46
def PCAN_LAN_CHANNEL_DIRECTION : TPCANParameter := 47
def PCAN_DEVICE_GUID : TPCANParameter := 48
def PCAN_BITRATE_INFO_CC : TPCANParameter := 49
def PCAN_BITRATE_INFO_XL : TPCANParameter := 50
def PCAN_BUSSPEED_XL : TPCANParameter := 51

end TPCANParameter

/-! ## PCAN-BUS handles and bit rate parameter names of the `PCANBasic` class -/

namespace PCANBasic

def PCAN_NONEBUS : TPCANHandle := 0x00
def PCAN_PCIBUS1 : TPCANHandle := 0x41
def PCAN_PCIBUS2 : TPCANHandle := 0x42
def PCAN_PCIBUS3 : TPCANHandle := 0x43
def PCAN_PCIBUS4 : TPCANHandle := 0x44
def PCAN_PCIBUS5 : TPCANHandle := 0x45
def PCAN_PCIBUS6 : TPCANHandle := 0x46
def PCAN_PCIBUS7 : TPCANHandle := 0x47
def PCAN_PCIBUS8 : TPCANHandle := 0x48
def PCAN_PCIBUS9 : TPCANHandle := 0x409
def PCAN_PCIBUS10 : TPCANHandle := 0x40A
def PCAN_PCIBUS11 : TPCANHandle := 0x40B
def PCAN_PCIBUS12 : TPCANHandle := 0x40C
def PCAN_PCIBUS13 : TPCANHandle := 0x40D
def PCAN_PCIBUS14 : TPCANHandle := 0x40E
def PCAN_PCIBUS15 : TPCANHandle := 0x40F
def PCAN_PCIBUS16 : TPCANHandle := 0x410
def PCAN_USBBUS1 : TPCANHandle := 0x51
def PCAN_USBBUS2 : TPCANHandle := 0x52
def PCAN_USBBUS3 : TPCANHandle := 0x53
def PCAN_USBBUS4 : TPCANHandle := 0x54
def PCAN_USBBUS5 : TPCANHandle := 0x55
def PCAN_USBBUS6 : TPCANHandle := 0x56
def PCAN_USBBUS7 : TPCANHandle := 0x57
def PCAN_USBBUS8 : TPCANHandle := 0x58
def PCAN_USBBUS9 : TPCANHandle := 0x509
def PCAN_USBBUS10 : TPCANHandle := 0x50A
def PCAN_USBBUS11 : TPCANHandle := 0x50B
def PCAN_USBBUS12 : TPCANHandle := 0x50C
def PCAN_USBBUS13 : TPCANHandle := 0x50D
def PCAN_USBBUS14 : TPCANHandle := 0x50E
def PCAN_USBBUS15 : TPCANHandle := 0x50F
def PCAN_USBBUS16 : TPCANHandle := 0x510
def PCAN_LANBUS1 : TPCANHandle := 0x801
def PCAN_LANBUS2 : TPCANHandle := 0x802
def PCAN_LANBUS3 : TPCANHandle := 0x803
def PCAN_LANBUS4 : TPCANHandle := 0x804
def PCAN_LANBUS5 : TPCANHandle := 0x805
def PCAN_LANBUS6 : TPCANHandle := 0x806
def PCAN_LANBUS7 : TPCANHandle := 0x807
def PCAN_LANBUS8 : TPCANHandle := 0x808
def PCAN_LANBUS9 : TPCANHandle := 0x809
def PCAN_LANBUS10 : TPCANHandle := 0x80A
def PCAN_LANBUS11 : TPCANHandle := 0x80B
def PCAN_LANBUS12 : TPCANHandle := 0x80C
def PCAN_LANBUS13 : TPCANHandle := 0x80D
def PCAN_LANBUS14 : TPCANHandle := 0x80E
def PCAN_LANBUS15 : TPCANHandle := 0x80F
def PCAN_LANBUS16 : TPCANHandle := 0x810

/-- The handle constants of the class with their names, in declaration order. -/
def busHandles : List (String × TPCANHandle) :=
  [("PCAN_NONEBUS", PCAN_NONEBUS),
    ("PCAN_PCIBUS1", PCAN_PCIBUS1),
    ("PCAN_PCIBUS2", PCAN_PCIBUS2),
    ("PCAN_PCIBUS3", PCAN_PCIBUS3),
    ("PCAN_PCIBUS4", PCAN_PCIBUS4),
    ("PCAN_PCIBUS5", PCAN_PCIBUS5),
    ("PCAN_PCIBUS6", PCAN_PCIBUS6),
    ("PCAN_PCIBUS7", PCAN_PCIBUS7),
    ("PCAN_PCIBUS8", PCAN_PCIBUS8),
    ("PCAN_PCIBUS9", PCAN_PCIBUS9),
    ("PCAN_PCIBUS10", PCAN_PCIBUS10),
    ("PCAN_PCIBUS11", PCAN_PCIBUS11),
    ("PCAN_PCIBUS12", PCAN_PCIBUS12),
    ("PCAN_PCIBUS13", PCAN_PCIBUS13),
    ("PCAN_PCIBUS14", PCAN_PCIBUS14),
    ("PCAN_PCIBUS15", PCAN_PCIBUS15),
    ("PCAN_PCIBUS16", PCAN_PCIBUS16),
    ("PCAN_USBBUS1", PCAN_USBBUS1),
    ("PCAN_USBBUS2", PCAN_USBBUS2),
    ("PCAN_USBBUS3", PCAN_USBBUS3),
    ("PCAN_USBBUS4", PCAN_USBBUS4),
    ("PCAN_USBBUS5", PCAN_USBBUS5),
    ("PCAN_USBBUS6", PCAN_USBBUS6),
    ("PCAN_USBBUS7", PCAN_USBBUS7),
    ("PCAN_USBBUS8", PCAN_USBBUS8),
    ("PCAN_USBBUS9", PCAN_USBBUS9),
    ("PCAN_USBBUS10", PCAN_USBBUS10),
    ("PCAN_USBBUS11", PCAN_USBBUS11),
    ("PCAN_USBBUS12", PCAN_USBBUS12),
    ("PCAN_USBBUS13", PCAN_USBBUS13),
    ("PCAN_USBBUS14", PCAN_USBBUS14),
    ("PCAN_USBBUS15", PCAN_USBBUS15),
    ("PCAN_USBBUS16", PCAN_USBBUS16),
    ("PCAN_LANBUS1", PCAN_LANBUS1),
    ("PCAN_LANBUS2", PCAN_LANBUS2),
    ("PCAN_LANBUS3", PCAN_LANBUS3),
    ("PCAN_LANBUS4", PCAN_LANBUS4),
    ("PCAN_LANBUS5", PCAN_LANBUS5),
    ("PCAN_LANBUS6", PCAN_LANBUS6),
    ("PCAN_LANBUS7", PCAN_LANBUS7),
    ("PCAN_LANBUS8", PCAN_LANBUS8),
    ("PCAN_LANBUS9", PCAN_LANBUS9),
    ("PCAN_LANBUS10", PCAN_LANBUS10),
    ("PCAN_LANBUS11", PCAN_LANBUS11),
    ("PCAN_LANBUS12", PCAN_LANBUS12),
    ("PCAN_LANBUS13", PCAN_LANBUS13),
    ("PCAN_LANBUS14", PCAN_LANBUS14),
    ("PCAN_LANBUS15", PCAN_LANBUS15),
    ("PCAN_LANBUS16", PCAN_LANBUS16)]

def PCAN_BR_CLOCK : String := "f_clock"
def PCAN_BR_CLOCK_MHZ : String := "f_clock_mhz"
def PCAN_BR_NOM_BRP : String := "nom_brp"
def PCAN_BR_NOM_TSEG1 : String := "nom_tseg1"
def PCAN_BR_NOM_TSEG2 : String := "nom_tseg2"
def PCAN_BR_NOM_SJW : String := "nom_sjw"
def PCAN_BR_NOM_SAMPLE : String := "nom_sam"
def PCAN_BR_DATA_BRP : String := "data_brp"
def PCAN_BR_DATA_TSEG1 : String := "data_tseg1"
def PCAN_BR_DATA_TSEG2 : String := "data_tseg2"
def PCAN_BR_DATA_SJW : String := "data_sjw"
def PCAN_BR_DATA_SAMPLE : String := "data_ssp_offset"
def PCAN_BR_DATA_SSP_OFFSET : String := "data_ssp_offset"
def PCAN_BR_BRP : String := "brp"
def PCAN_BR_FD_TSEG1 : String := "fd_tseg1"
def PCAN_BR_FD_TSEG2 : String := "fd_tseg2"
def PCAN_BR_FD_SJW : String := "fd_sjw"
def PCAN_BR_FD_SSP_OFFSET : String := "fd_ssp_offset"
def PCAN_BR_XL_TSEG1 : String := "xl_tseg1"
def PCAN_BR_XL_TSEG2 : String := "xl_tseg2"
def PCAN_BR_XL_SJW : String := "xl_sjw"
def PCAN_BR_XL_SSP_OFFSET : String := "xl_ssp_offset"
def PCAN_BR_XL_PWM_OFFSET : String := "xl_pwm_offset"
def PCAN_BR_XL_PWM_SHORT : String := "xl_pwm_short"
def PCAN_BR_XL_PWM_LONG : String := "xl_pwm_long"
def PCAN_BR_XL_TRANSCEIVER_MODE_SWITCH : String := "xl_transceiver_mode_switch"
def PCAN_BR_XL_ERROR_SIGNALING : String := "xl_error_signaling"

end PCANBasic

/-! ## Status words built from named conditions -/

/-- The named status conditions: every name of the enumeration other than
`PCAN_ERROR_OK`, the alias `PCAN_ERROR_BUSWARNING` and the two masks. -/
def TPCANStatusName.isCondition (c : TPCANStatusName) : Bool :=
  !([TPCANStatusName.PCAN_ERROR_OK, .PCAN_ERROR_BUSWARNING, .PCAN_ERROR_ANYBUSERR,
    .PCAN_ERROR_ILLHANDLE].contains c)

/-- The named conditions other than the three handle errors, whose values
`0x1400`, `0x1800` and `0x1C00` have more than one bit. -/
def TPCANStatusName.isFlag (c : TPCANStatusName) : Bool :=
  c.isCondition && !([TPCANStatusName.PCAN_ERROR_ILLHW, .PCAN_ERROR_ILLNET,
    .PCAN_ERROR_ILLCLIENT].contains c)

/-- The position of the lowest of the 32 bits of a status value that is set (32 for the value 0). -/
def TPCANStatusName.bitIndex (c : TPCANStatusName) : Nat :=
  ((List.range 32).find? (fun k => c.value.testBit k)).getD 32

/-- The status word in which the conditions of `S` are set: the bitwise OR of their values. -/
def statusOf (S : List TPCANStatusName) : TPCANStatus :=
  S.foldr (fun c acc => c.value ||| acc) 0

/-! ## Sequential layout of marshalled structures -/

/-- Natural alignment of a member in unmanaged memory: the size of a scalar,
and the alignment of one element (one byte) for an embedded array or string. -/
def UnmanagedType.alignment : UnmanagedType → Nat
  | .U1 => 1
  | .U2 => 2
  | .U4 => 4
  | .U8 => 8
  | .ByValArray _ => 1
  | .ByValTStr _ => 1

/-- The first multiple of `a` that is not below `offset`. -/
def alignUp (offset a : Nat) : Nat :=
  (offset + a - 1) / a * a

/-- Offsets of the members laid out in declaration order from `offset` on,
each at the first naturally aligned position after its predecessor. -/
def layoutFrom (offset : Nat) : List FieldDecl → List (String × Nat)
  | [] => []
  | f :: fs =>
    (f.name, alignUp offset f.type.alignment) ::
      layoutFrom (alignUp offset f.type.alignment + f.type.size) fs

/-- The position just behind the last member. -/
def layoutEnd (offset : Nat) : List FieldDecl → Nat
  | [] => offset
  | f :: fs => layoutEnd (alignUp offset f.type.alignment + f.type.size) fs

/-- Offsets of the members of a structure. -/
def fieldOffsets (fields : List FieldDecl) : List (String × Nat) :=
  layoutFrom 0 fields

/-- Alignment of a structure: the largest alignment among its members. -/
def structAlignment (fields : List FieldDecl) : Nat :=
  fields.foldl (fun a f => max a f.type.alignment) 1

/-- Size of a structure: the end of its last member, rounded up to its alignment. -/
def structSize (fields : List FieldDecl) : Nat :=
  alignUp (layoutEnd 0 fields) (structAlignment fields)

/-- Members of `TPCANChannelInformation`, in declaration order. -/
def TPCANChannelInformation.fields : List FieldDecl :=
  [⟨"channel_handle", .U2⟩, ⟨"device_type", .U1⟩, ⟨"controller_number", .U1⟩,
    ⟨"device_features", .U4⟩, ⟨"device_name", .ByValTStr MAX_LENGTH_HARDWARE_NAME⟩,
    ⟨"device_id", .U4⟩, ⟨"channel_condition", .U4⟩]

/-- Members of `TPCANTimestamp`, in declaration order. -/
def TPCANTimestamp.fields : List FieldDecl :=
  [⟨"millis", .U4⟩, ⟨"millis_overflow", .U2⟩, ⟨"micros", .U2⟩]

/-! ## Timestamps -/

/-- The total of the summary of `TPCANTimestamp`, as an exact number:
`micros + (1000ULL * millis) + (0x100000000ULL * 1000 * millis_overflow)`. -/
def TPCANTimestamp.totalMicroseconds (t : TPCANTimestamp) : Nat :=
  t.micros + 1000 * t.millis + 0x100000000 * 1000 * t.millis_overflow

/-- The same total evaluated in unsigned 64-bit arithmetic: every product and
every sum is reduced modulo `2 ^ 64`. -/
def TPCANTimestamp.totalMicroseconds64 (t : TPCANTimestamp) : Nat :=
  ((t.micros + (1000 * t.millis) % 2 ^ 64) % 2 ^ 64 +
    (((0x100000000 * 1000) % 2 ^ 64) * t.millis_overflow) % 2 ^ 64) % 2 ^ 64

/-- A timestamp whose members are within the range of their types
(`UInt32 millis`, `UInt16 millis_overflow`, `UInt16 micros`). -/
def TPCANTimestamp.inRange (t : TPCANTimestamp) : Prop :=
  t.millis < 2 ^ 32 ∧ t.millis_overflow < 2 ^ 16 ∧ t.micros < 2 ^ 16

instance (t : TPCANTimestamp) : Decidable t.inRange := by
  unfold TPCANTimestamp.inRange
  infer_instance

/-! ## The `PCANBasic` class: all method declarations -/

/-- One method declaration of the class: name, access level, managed parameter types. -/
structure MethodDecl where
  method : String
  isPublic : Bool
  parameters : List String
  deriving DecidableEq, Repr

/-- The payload kinds of the value accessors. -/
inductive PayloadKind
  | string
  | uint32
  | uint64
  | channelArray
  deriving DecidableEq, Repr

/-- The managed parameter types that carry a payload of the given kind. -/
def PayloadKind.types : PayloadKind → List String
  | .string => ["StringBuilder^", "String^"]
  | .uint32 => ["UInt32%"]
  | .uint64 => ["UInt64%"]
  | .channelArray => ["array<TPCANChannelInformation>^"]

namespace PCANBasic

/-- The methods of the class that have a body, in source order. -/
def wrappers : List MethodDecl :=
  [ ⟨"Initialize", true, ["TPCANHandle", "TPCANBaudrate"]⟩,
    ⟨"Read", true, ["TPCANHandle", "TPCANMsg%"]⟩,
    ⟨"ReadFD", true, ["TPCANHandle", "TPCANMsgFD%"]⟩,
    ⟨"ReadXL", true, ["TPCANHandle", "TPCANMsgXL%"]⟩,
    ⟨"GetValue", true, ["TPCANHandle", "TPCANParameter", "array<TPCANChannelInformation>^"]⟩ ]

/-- Every method declaration of the class: the external ones and the ones with a body. -/
def methods : List MethodDecl :=
  dllImports.map (fun d => ⟨d.method, d.isPublic, d.parameters⟩) ++ wrappers

/-- Whether the class has a public overload of `method` whose buffer, the
third parameter, carries a payload of kind `k`. -/
def hasPublicOverload (method : String) (k : PayloadKind) : Bool :=
  methods.any (fun m => m.method == method && m.isPublic &&
    match m.parameters.get? 2 with
    | some t => k.types.contains t
    | none => false)

/-! ## Bit rate strings in the documentation of `InitializeFD` and `InitializeXL` -/

/-- The pieces of a text between occurrences of the separator. -/
def splitAt (sep : Char) : List Char → List (List Char)
  | [] => [[]]
  | c :: cs =>
    if c = sep then [] :: splitAt sep cs
    else
      match splitAt sep cs with
      | [] => [[c]]
      | p :: ps => (c :: p) :: ps

/-- The parameter name of one `name=value` couple: the text before `=`,
without the white space in front of it. -/
def keyOf (couple : List Char) : String :=
  String.mk ((couple.dropWhile Char.isWhitespace).takeWhile (fun c => c != '='))

/-- The parameter names of a bit rate string: couples are separated by `,`,
parameter and value by `=`. -/
def bitrateKeys (bitrate : String) : List String :=
  (splitAt ',' bitrate.toList).map keyOf

/-- The parameters the remarks of `InitializeFD` list under "must be filled out". -/
def InitializeFD_mandatory : List String :=
  ["f_clock", "data_brp", "data_sjw", "data_tseg1", "data_tseg2", "nom_brp", "nom_sjw",
    "nom_tseg1", "nom_tseg2"]

/-- The `<example>` of `InitializeFD`. -/
def InitializeFD_example : String :=
  "f_clock=80000000,nom_brp=10,nom_tseg1=5,nom_tseg2=2,nom_sjw=1,data_brp=4,data_tseg1=7,data_tseg2=2,data_sjw=1"

/-- The parameters the remarks of `InitializeXL` list under "must be filled out". -/
def InitializeXL_mandatory : List String :=
  ["f_clock", "brp", "nom_brp", "nom_sjw", "nom_tseg1", "nom_tseg2"]

/-- The `<example>` of `InitializeXL`.  It spans two comment lines; the line
break after `xl_tseg1=10,` is kept as one blank. -/
def InitializeXL_example : String :=
  "f_clock=160000000,brp=1,nom_tseg1=255,nom_tseg2=64,nom_sjw=64,fd_tseg1=63,fd_tseg2=16,fd_sjw=16,fd_ssp_offset=0,xl_tseg1=10, xl_tseg2=9,xl_sjw=9,xl_ssp_offset=10,xl_error_signaling=1,xl_transceiver_mode_switch=0"

end PCANBasic

/-! ## The names of `TPCANParameter` -/

/-- The names declared by `enum class TPCANParameter`, in declaration order. -/
inductive TPCANParameterName
  | PCAN_DEVICE_ID
  | PCAN_5VOLTS_POWER
  | PCAN_RECEIVE_EVENT
  | PCAN_MESSAGE_FILTER
  | PCAN_API_VERSION
  | PCAN_CHANNEL_VERSION
  | PCAN_BUSOFF_AUTORESET
  | PCAN_LISTEN_ONLY
  | PCAN_LOG_LOCATION
  | PCAN_LOG_STATUS
  | PCAN_LOG_CONFIGURE
  | PCAN_LOG_TEXT
  | PCAN_CHANNEL_CONDITION
  | PCAN_HARDWARE_NAME
  | PCAN_RECEIVE_STATUS
  | PCAN_CONTROLLER_NUMBER
  | PCAN_TRACE_LOCATION
  | PCAN_TRACE_STATUS
  | PCAN_TRACE_SIZE
  | PCAN_TRACE_CONFIGURE
  | PCAN_CHANNEL_IDENTIFYING
  | PCAN_CHANNEL_FEATURES
  | PCAN_BITRATE_ADAPTING
  | PCAN_BITRATE_INFO_BTR
  | PCAN_BITRATE_INFO
  | PCAN_BITRATE_INFO_FD
  | PCAN_BUSSPEED_NOMINAL
  | PCAN_BUSSPEED_FD
  | PCAN_BUSSPEED_DATA
  | PCAN_IP_ADDRESS
  | PCAN_LAN_SERVICE_STATUS
  | PCAN_ALLOW_STATUS_FRAMES
  | PCAN_ALLOW_RTR_FRAMES
  | PCAN_ALLOW_ERROR_FRAMES
  | PCAN_INTERFRAME_DELAY
  | PCAN_ACCEPTANCE_FILTER_11BIT
  | PCAN_ACCEPTANCE_FILTER_29BIT
  | PCAN_IO_DIGITAL_CONFIGURATION
  | PCAN_IO_DIGITAL_VALUE
  | PCAN_IO_DIGITAL_SET
  | PCAN_IO_DIGITAL_CLEAR
  | PCAN_IO_ANALOG_VALUE
  | PCAN_FIRMWARE_VERSION
  | PCAN_ATTACHED_CHANNELS_COUNT
  | PCAN_ATTACHED_CHANNELS
  | PCAN_ALLOW_ECHO_FRAMES
  | PCAN_DEVICE_PART_NUMBER
  | PCAN_HARD_RESET_STATUS
  | PCAN_LAN_CHANNEL_DIRECTION
  | PCAN_DEVICE_GUID
  | PCAN_BITRATE_INFO_CC
  | PCAN_BITRATE_INFO_XL
  | PCAN_BUSSPEED_XL
  deriving DecidableEq, Repr

/-- The numeric value the enumeration gives to each of its names. -/
def TPCANParameterName.value : TPCANParameterName → TPCANParameter
  | .PCAN_DEVICE_ID => TPCANParameter.PCAN_DEVICE_ID
  | .PCAN_5VOLTS_POWER => TPCANParameter.PCAN_5VOLTS_POWER
  | .PCAN_RECEIVE_EVENT => TPCANParameter.PCAN_RECEIVE_EVENT
  | .PCAN_MESSAGE_FILTER => TPCANParameter.PCAN_MESSAGE_FILTER
  | .PCAN_API_VERSION => TPCANParameter.PCAN_API_VERSION
  | .PCAN_CHANNEL_VERSION => TPCANParameter.PCAN_CHANNEL_VERSION
  | .PCAN_BUSOFF_AUTORESET => TPCANParameter.PCAN_BUSOFF_AUTORESET
  | .PCAN_LISTEN_ONLY => TPCANParameter.PCAN_LISTEN_ONLY
  | .PCAN_LOG_LOCATION => TPCANParameter.PCAN_LOG_LOCATION
  | .PCAN_LOG_STATUS => TPCANParameter.PCAN_LOG_STATUS
  | .PCAN_LOG_CONFIGURE => TPCANParameter.PCAN_LOG_CONFIGURE
  | .PCAN_LOG_TEXT => TPCANParameter.PCAN_LOG_TEXT
  | .PCAN_CHANNEL_CONDITION => TPCANParameter.PCAN_CHANNEL_CONDITION
  | .PCAN_HARDWARE_NAME => TPCANParameter.PCAN_HARDWARE_NAME
  | .PCAN_RECEIVE_STATUS => TPCANParameter.PCAN_RECEIVE_STATUS
  | .PCAN_CONTROLLER_NUMBER => TPCANParameter.PCAN_CONTROLLER_NUMBER
  | .PCAN_TRACE_LOCATION => TPCANParameter.PCAN_TRACE_LOCATION
  | .PCAN_TRACE_STATUS => TPCANParameter.PCAN_TRACE_STATUS
  | .PCAN_TRACE_SIZE => TPCANParameter.PCAN_TRACE_SIZE
  | .PCAN_TRACE_CONFIGURE => TPCANParameter.PCAN_TRACE_CONFIGURE
  | .PCAN_CHANNEL_IDENTIFYING => TPCANParameter.PCAN_CHANNEL_IDENTIFYING
  | .PCAN_CHANNEL_FEATURES => TPCANParameter.PCAN_CHANNEL_FEATURES
  | .PCAN_BITRATE_ADAPTING => TPCANParameter.PCAN_BITRATE_ADAPTING
  | .PCAN_BITRATE_INFO_BTR => TPCANParameter.PCAN_BITRATE_INFO_BTR
  | .PCAN_BITRATE_INFO => TPCANParameter.PCAN_BITRATE_INFO
  | .PCAN_BITRATE_INFO_FD => TPCANParameter.PCAN_BITRATE_INFO_FD
  | .PCAN_BUSSPEED_NOMINAL => TPCANParameter.PCAN_BUSSPEED_NOMINAL
  | .PCAN_BUSSPEED_FD => TPCANParameter.PCAN_BUSSPEED_FD
  | .PCAN_BUSSPEED_DATA => TPCANParameter.PCAN_BUSSPEED_DATA
  | .PCAN_IP_ADDRESS => TPCANParameter.PCAN_IP_ADDRESS
  | .PCAN_LAN_SERVICE_STATUS => TPCANParameter.PCAN_LAN_SERVICE_STATUS
  | .PCAN_ALLOW_STATUS_FRAMES => TPCANParameter.PCAN_ALLOW_STATUS_FRAMES
  | .PCAN_ALLOW_RTR_FRAMES => TPCANParameter.PCAN_ALLOW_RTR_FRAMES
  | .PCAN_ALLOW_ERROR_FRAMES => TPCANParameter.PCAN_ALLOW_ERROR_FRAMES
  | .PCAN_INTERFRAME_DELAY => TPCANParameter.PCAN_INTERFRAME_DELAY
  | .PCAN_ACCEPTANCE_FILTER_11BIT => TPCANParameter.PCAN_ACCEPTANCE_FILTER_11BIT
  | .PCAN_ACCEPTANCE_FILTER_29BIT => TPCANParameter.PCAN_ACCEPTANCE_FILTER_29BIT
  | .PCAN_IO_DIGITAL_CONFIGURATION => TPCANParameter.PCAN_IO_DIGITAL_CONFIGURATION
  | .PCAN_IO_DIGITAL_VALUE => TPCANParameter.PCAN_IO_DIGITAL_VALUE
  | .PCAN_IO_DIGITAL_SET => TPCANParameter.PCAN_IO_DIGITAL_SET
  | .PCAN_IO_DIGITAL_CLEAR => TPCANParameter.PCAN_IO_DIGITAL_CLEAR
  | .PCAN_IO_ANALOG_VALUE => TPCANParameter.PCAN_IO_ANALOG_VALUE
  | .PCAN_FIRMWARE_VERSION => TPCANParameter.PCAN_FIRMWARE_VERSION
  | .PCAN_ATTACHED_CHANNELS_COUNT => TPCANParameter.PCAN_ATTACHED_CHANNELS_COUNT
  | .PCAN_ATTACHED_CHANNELS => TPCANParameter.PCAN_ATTACHED_CHANNELS
  | .PCAN_ALLOW_ECHO_FRAMES => TPCANParameter.PCAN_ALLOW_ECHO_FRAMES
  | .PCAN_DEVICE_PART_NUMBER => TPCANParameter.PCAN_DEVICE_PART_NUMBER
  | .PCAN_HARD_RESET_STATUS => TPCANParameter.PCAN_HARD_RESET_STATUS
  | .PCAN_LAN_CHANNEL_DIRECTION => TPCANParameter.PCAN_LAN_CHANNEL_DIRECTION
  | .PCAN_DEVICE_GUID => TPCANParameter.PCAN_DEVICE_GUID
  | .PCAN_BITRATE_INFO_CC => TPCANParameter.PCAN_BITRATE_INFO_CC
  | .PCAN_BITRATE_INFO_XL => TPCANParameter.PCAN_BITRATE_INFO_XL
  | .PCAN_BUSSPEED_XL => TPCANParameter.PCAN_BUSSPEED_XL

/-- The names that carry the attribute `[Obsolete]`. -/
def TPCANParameterName.isObsolete : TPCANParameterName → Bool
  | .PCAN_BITRATE_INFO => true
  | .PCAN_BUSSPEED_DATA => true
  | _ => false

/-- All names of the enumeration, in declaration order. -/
def TPCANParameterName.all : List TPCANParameterName :=
  [.PCAN_DEVICE_ID,
    .PCAN_5VOLTS_POWER,
    .PCAN_RECEIVE_EVENT,
    .PCAN_MESSAGE_FILTER,
    .PCAN_API_VERSION,
    .PCAN_CHANNEL_VERSION,
    .PCAN_BUSOFF_AUTORESET,
    .PCAN_LISTEN_ONLY,
    .PCAN_LOG_LOCATION,
    .PCAN_LOG_STATUS,
    .PCAN_LOG_CONFIGURE,
    .PCAN_LOG_TEXT,
    .PCAN_CHANNEL_CONDITION,
    .PCAN_HARDWARE_NAME,
    .PCAN_RECEIVE_STATUS,
    .PCAN_CONTROLLER_NUMBER,
    .PCAN_TRACE_LOCATION,
    .PCAN_TRACE_STATUS,
    .PCAN_TRACE_SIZE,
    .PCAN_TRACE_CONFIGURE,
    .PCAN_CHANNEL_IDENTIFYING,
    .PCAN_CHANNEL_FEATURES,
    .PCAN_BITRATE_ADAPTING,
    .PCAN_BITRATE_INFO_BTR,
    .PCAN_BITRATE_INFO,
    .PCAN_BITRATE_INFO_FD,
    .PCAN_BUSSPEED_NOMINAL,
    .PCAN_BUSSPEED_FD,
    .PCAN_BUSSPEED_DATA,
    .PCAN_IP_ADDRESS,
    .PCAN_LAN_SERVICE_STATUS,
    .PCAN_ALLOW_STATUS_FRAMES,
    .PCAN_ALLOW_RTR_FRAMES,
    .PCAN_ALLOW_ERROR_FRAMES,
    .PCAN_INTERFRAME_DELAY,
    .PCAN_ACCEPTANCE_FILTER_11BIT,
    .PCAN_ACCEPTANCE_FILTER_29BIT,
    .PCAN_IO_DIGITAL_CONFIGURATION,
    .PCAN_IO_DIGITAL_VALUE,
    .PCAN_IO_DIGITAL_SET,
    .PCAN_IO_DIGITAL_CLEAR,
    .PCAN_IO_ANALOG_VALUE,
    .PCAN_FIRMWARE_VERSION,
    .PCAN_ATTACHED_CHANNELS_COUNT,
    .PCAN_ATTACHED_CHANNELS,
    .PCAN_ALLOW_ECHO_FRAMES,
    .PCAN_DEVICE_PART_NUMBER,
    .PCAN_HARD_RESET_STATUS,
    .PCAN_LAN_CHANNEL_DIRECTION,
    .PCAN_DEVICE_GUID,
    .PCAN_BITRATE_INFO_CC,
    .PCAN_BITRATE_INFO_XL,
    .PCAN_BUSSPEED_XL]

/-- Whether `n` shares its value with another name of the enumeration. -/
def TPCANParameterName.sharesValue (n : TPCANParameterName) : Bool :=
  TPCANParameterName.all.any (fun m => m != n && m.value == n.value)

/-! ## The enumerators of `TPCANDevice` -/

/-- Underlying type of a PCAN device (`enum class TPCANDevice : Byte`). -/
abbrev TPCANDevice : Type := Nat

namespace TPCANDevice

def PCAN_NONE : TPCANDevice := 0
def PCAN_PCI : TPCANDevice := 4
def PCAN_USB : TPCANDevice := 5
def PCAN_LAN : TPCANDevice := 8

end TPCANDevice

/-! ## The enumerators of `TPCANMessageType` and `TPCANMessageTypeXL` -/

/-- Underlying type of a message type (`enum class TPCANMessageType : Byte`, a flags enumeration). -/
abbrev TPCANMessageType : Type := Nat

/-- Underlying type of a XL message type (`enum class TPCANMessageTypeXL : UInt16`, a flags
enumeration). -/
abbrev TPCANMessageTypeXL : Type := Nat

namespace TPCANMessageType

def PCAN_MESSAGE_STANDARD : TPCANMessageType := 0x00
def PCAN_MESSAGE_RTR : TPCANMessageType := 0x01
def PCAN_MESSAGE_EXTENDED : TPCANMessageType := 0x02
def PCAN_MESSAGE_FD : TPCANMessageType := 0x04
def PCAN_MESSAGE_BRS : TPCANMessageType := 0x08
def PCAN_MESSAGE_ESI : TPCANMessageType := 0x10
def PCAN_MESSAGE_ECHO : TPCANMessageType := 0x20
def PCAN_MESSAGE_ERRFRAME : TPCANMessageType := 0x40
def PCAN_MESSAGE_STATUS : TPCANMessageType := 0x80

end TPCANMessageType

namespace TPCANMessageTypeXL

def PCAN_MESSAGE_STANDARD : TPCANMessageTypeXL := 0x00
def PCAN_MESSAGE_RTR : TPCANMessageTypeXL := 0x01
def PCAN_MESSAGE_EXTENDED : TPCANMessageTypeXL := 0x02
def PCAN_MESSAGE_FD : TPCANMessageTypeXL := 0x04
def PCAN_MESSAGE_BRS : TPCANMessageTypeXL := 0x08
def PCAN_MESSAGE_ESI : TPCANMessageTypeXL := 0x10
def PCAN_MESSAGE_ECHO : TPCANMessageTypeXL := 0x20
def PCAN_MESSAGE_ERRFRAME : TPCANMessageTypeXL := 0x40
def PCAN_MESSAGE_STATUS : TPCANMessageTypeXL := 0x80
def PCAN_MESSAGE_XL : TPCANMessageTypeXL := 0x100
def PCAN_MESSAGE_PROTOCOL_EXCEPTION : TPCANMessageTypeXL := 0x200
def PCAN_MESSAGE_ERROR_NOTIFICATION : TPCANMessageTypeXL := 0x400

end TPCANMessageTypeXL

/-- The names declared by `enum class TPCANMessageType`, in declaration order. -/
inductive TPCANMessageTypeName
  | PCAN_MESSAGE_STANDARD
  | PCAN_MESSAGE_RTR
  | PCAN_MESSAGE_EXTENDED
  | PCAN_MESSAGE_FD
  | PCAN_MESSAGE_BRS
  | PCAN_MESSAGE_ESI
  | PCAN_MESSAGE_ECHO
  | PCAN_MESSAGE_ERRFRAME
  | PCAN_MESSAGE_STATUS
  deriving DecidableEq, Repr

/-- The numeric value `TPCANMessageType` gives to each of its names. -/
def TPCANMessageTypeName.value : TPCANMessageTypeName → TPCANMessageType
  | .PCAN_MESSAGE_STANDARD => TPCANMessageType.PCAN_MESSAGE_STANDARD
  | .PCAN_MESSAGE_RTR => TPCANMessageType.PCAN_MESSAGE_RTR
  | .PCAN_MESSAGE_EXTENDED => TPCANMessageType.PCAN_MESSAGE_EXTENDED
  | .PCAN_MESSAGE_FD => TPCANMessageType.PCAN_MESSAGE_FD
  | .PCAN_MESSAGE_BRS => TPCANMessageType.PCAN_MESSAGE_BRS
  | .PCAN_MESSAGE_ESI => TPCANMessageType.PCAN_MESSAGE_ESI
  | .PCAN_MESSAGE_ECHO => TPCANMessageType.PCAN_MESSAGE_ECHO
  | .PCAN_MESSAGE_ERRFRAME => TPCANMessageType.PCAN_MESSAGE_ERRFRAME
  | .PCAN_MESSAGE_STATUS => TPCANMessageType.PCAN_MESSAGE_STATUS

/-- All names of `TPCANMessageType`, in declaration order. -/
def TPCANMessageTypeName.all : List TPCANMessageTypeName :=
  [.PCAN_MESSAGE_STANDARD, .PCAN_MESSAGE_RTR, .PCAN_MESSAGE_EXTENDED, .PCAN_MESSAGE_FD, .PCAN_MESSAGE_BRS, .PCAN_MESSAGE_ESI, .PCAN_MESSAGE_ECHO, .PCAN_MESSAGE_ERRFRAME, .PCAN_MESSAGE_STATUS]

/-- The names declared by `enum class TPCANMessageTypeXL`, in declaration order. -/
inductive TPCANMessageTypeXLName
  | PCAN_MESSAGE_STANDARD
  | PCAN_MESSAGE_RTR
  | PCAN_MESSAGE_EXTENDED
  | PCAN_MESSAGE_FD
  | PCAN_MESSAGE_BRS
  | PCAN_MESSAGE_ESI
  | PCAN_MESSAGE_ECHO
  | PCAN_MESSAGE_ERRFRAME
  | PCAN_MESSAGE_STATUS
  | PCAN_MESSAGE_XL
  | PCAN_MESSAGE_PROTOCOL_EXCEPTION
  | PCAN_MESSAGE_ERROR_NOTIFICATION
  deriving DecidableEq, Repr

/-- The numeric value `TPCANMessageTypeXL` gives to each of its names. -/
def TPCANMessageTypeXLName.value : TPCANMessageTypeXLName → TPCANMessageTypeXL
  | .PCAN_MESSAGE_STANDARD => TPCANMessageTypeXL.PCAN_MESSAGE_STANDARD
  | .PCAN_MESSAGE_RTR => TPCANMessageTypeXL.PCAN_MESSAGE_RTR
  | .PCAN_MESSAGE_EXTENDED => TPCANMessageTypeXL.PCAN_MESSAGE_EXTENDED
  | .PCAN_MESSAGE_FD => TPCANMessageTypeXL.PCAN_MESSAGE_FD
  | .PCAN_MESSAGE_BRS => TPCANMessageTypeXL.PCAN_MESSAGE_BRS
  | .PCAN_MESSAGE_ESI => TPCANMessageTypeXL.PCAN_MESSAGE_ESI
  | .PCAN_MESSAGE_ECHO => TPCANMessageTypeXL.PCAN_MESSAGE_ECHO
  | .PCAN_MESSAGE_ERRFRAME => TPCANMessageTypeXL.PCAN_MESSAGE_ERRFRAME
  | .PCAN_MESSAGE_STATUS => TPCANMessageTypeXL.PCAN_MESSAGE_STATUS
  | .PCAN_MESSAGE_XL => TPCANMessageTypeXL.PCAN_MESSAGE_XL
  | .PCAN_MESSAGE_PROTOCOL_EXCEPTION => TPCANMessageTypeXL.PCAN_MESSAGE_PROTOCOL_EXCEPTION
  | .PCAN_MESSAGE_ERROR_NOTIFICATION => TPCANMessageTypeXL.PCAN_MESSAGE_ERROR_NOTIFICATION

/-- The name of `TPCANMessageTypeXL` spelled like the given name of `TPCANMessageType`. -/
def TPCANMessageTypeName.toXL : TPCANMessageTypeName → TPCANMessageTypeXLName
  | .PCAN_MESSAGE_STANDARD => .PCAN_MESSAGE_STANDARD
  | .PCAN_MESSAGE_RTR => .PCAN_MESSAGE_RTR
  | .PCAN_MESSAGE_EXTENDED => .PCAN_MESSAGE_EXTENDED
  | .PCAN_MESSAGE_FD => .PCAN_MESSAGE_FD
  | .PCAN_MESSAGE_BRS => .PCAN_MESSAGE_BRS
  | .PCAN_MESSAGE_ESI => .PCAN_MESSAGE_ESI
  | .PCAN_MESSAGE_ECHO => .PCAN_MESSAGE_ECHO
  | .PCAN_MESSAGE_ERRFRAME => .PCAN_MESSAGE_ERRFRAME
  | .PCAN_MESSAGE_STATUS => .PCAN_MESSAGE_STATUS

/-- The names of `TPCANMessageTypeXL` that `TPCANMessageType` does not have. -/
def TPCANMessageTypeXLName.isXLOnly (n : TPCANMessageTypeXLName) : Bool :=
  !((TPCANMessageTypeName.all.map TPCANMessageTypeName.toXL).contains n)

/-- The message type in which exactly the names selected by `S` are set: the
bitwise OR of their values. -/
def messageTypeOf (S : TPCANMessageTypeName → Bool) : TPCANMessageType :=
  TPCANMessageTypeName.all.foldr (fun n acc => if S n then n.value ||| acc else acc) 0

/-- The position of the lowest of the 8 bits of a message type value that is set (8 for the
value 0). -/
def TPCANMessageTypeName.bitIndex (n : TPCANMessageTypeName) : Nat :=
  ((List.range 8).find? (fun k => n.value.testBit k)).getD 8

/-! ## Status words and the named codes -/

/-- All names of `TPCANStatus`, in declaration order. -/
def TPCANStatusName.all : List TPCANStatusName :=
  [.PCAN_ERROR_OK, .PCAN_ERROR_XMTFULL, .PCAN_ERROR_OVERRUN, .PCAN_ERROR_BUSLIGHT,
    .PCAN_ERROR_BUSHEAVY, .PCAN_ERROR_BUSWARNING, .PCAN_ERROR_BUSPASSIVE, .PCAN_ERROR_BUSOFF,
    .PCAN_ERROR_ANYBUSERR, .PCAN_ERROR_QRCVEMPTY, .PCAN_ERROR_QOVERRUN, .PCAN_ERROR_QXMTFULL,
    .PCAN_ERROR_REGTEST, .PCAN_ERROR_NODRIVER, .PCAN_ERROR_HWINUSE, .PCAN_ERROR_NETINUSE,
    .PCAN_ERROR_ILLHW, .PCAN_ERROR_ILLNET, .PCAN_ERROR_ILLCLIENT, .PCAN_ERROR_ILLHANDLE,
    .PCAN_ERROR_RESOURCE, .PCAN_ERROR_ILLPARAMTYPE, .PCAN_ERROR_ILLPARAMVAL,
    .PCAN_ERROR_UNKNOWN, .PCAN_ERROR_ILLDATA, .PCAN_ERROR_ILLMODE, .PCAN_ERROR_CAUTION,
    .PCAN_ERROR_INITIALIZE, .PCAN_ERROR_ILLOPERATION]

/-- The single-bit codes: every name other than `PCAN_ERROR_OK`, the three
handle errors and the two masks. -/
def TPCANStatusName.isSingleBitCode (c : TPCANStatusName) : Bool :=
  !([TPCANStatusName.PCAN_ERROR_OK, .PCAN_ERROR_ILLHW, .PCAN_ERROR_ILLNET,
    .PCAN_ERROR_ILLCLIENT, .PCAN_ERROR_ANYBUSERR, .PCAN_ERROR_ILLHANDLE].contains c)

/-- The bits that occur in some named code: the bitwise OR of all values. -/
def namedStatusBits : TPCANStatus :=
  statusOf TPCANStatusName.all

/-! ## Families of channel handles -/

/-- The device digit of a handle: `h >> 4` for a handle below `0x100`, otherwise `h >> 8`. -/
def deviceDigit (h : TPCANHandle) : Nat :=
  if h < 0x100 then h >>> 4 else h >>> 8

/-- The bits of a handle below its device digit. -/
def channelIndex (h : TPCANHandle) : Nat :=
  if h < 0x100 then h &&& 0xF else h &&& 0xFF

namespace PCANBasic

/-- The handles `PCAN_PCIBUS1` to `PCAN_PCIBUS16`, in order. -/
def pciHandles : List TPCANHandle :=
  [PCAN_PCIBUS1, PCAN_PCIBUS2, PCAN_PCIBUS3, PCAN_PCIBUS4, PCAN_PCIBUS5, PCAN_PCIBUS6,
    PCAN_PCIBUS7, PCAN_PCIBUS8, PCAN_PCIBUS9, PCAN_PCIBUS10, PCAN_PCIBUS11, PCAN_PCIBUS12,
    PCAN_PCIBUS13, PCAN_PCIBUS14, PCAN_PCIBUS15, PCAN_PCIBUS16]

/-- The handles `PCAN_USBBUS1` to `PCAN_USBBUS16`, in order. -/
def usbHandles : List TPCANHandle :=
  [PCAN_USBBUS1, PCAN_USBBUS2, PCAN_USBBUS3, PCAN_USBBUS4, PCAN_USBBUS5, PCAN_USBBUS6,
    PCAN_USBBUS7, PCAN_USBBUS8, PCAN_USBBUS9, PCAN_USBBUS10, PCAN_USBBUS11, PCAN_USBBUS12,
    PCAN_USBBUS13, PCAN_USBBUS14, PCAN_USBBUS15, PCAN_USBBUS16]

/-- The handles `PCAN_LANBUS1` to `PCAN_LANBUS16`, in order. -/
def lanHandles : List TPCANHandle :=
  [PCAN_LANBUS1, PCAN_LANBUS2, PCAN_LANBUS3, PCAN_LANBUS4, PCAN_LANBUS5, PCAN_LANBUS6,
    PCAN_LANBUS7, PCAN_LANBUS8, PCAN_LANBUS9, PCAN_LANBUS10, PCAN_LANBUS11, PCAN_LANBUS12,
    PCAN_LANBUS13, PCAN_LANBUS14, PCAN_LANBUS15, PCAN_LANBUS16]

/-! ## Parameter names in the remarks of `InitializeFD` and `InitializeXL` -/

/-- The values of all `PCAN_BR_*` constants, in declaration order. -/
def bitrateParameterNames : List String :=
  [PCAN_BR_CLOCK, PCAN_BR_CLOCK_MHZ, PCAN_BR_NOM_BRP, PCAN_BR_NOM_TSEG1, PCAN_BR_NOM_TSEG2,
    PCAN_BR_NOM_SJW, PCAN_BR_NOM_SAMPLE, PCAN_BR_DATA_BRP, PCAN_BR_DATA_TSEG1,
    PCAN_BR_DATA_TSEG2, PCAN_BR_DATA_SJW, PCAN_BR_DATA_SAMPLE, PCAN_BR_DATA_SSP_OFFSET,
    PCAN_BR_BRP, PCAN_BR_FD_TSEG1, PCAN_BR_FD_TSEG2, PCAN_BR_FD_SJW, PCAN_BR_FD_SSP_OFFSET,
    PCAN_BR_XL_TSEG1, PCAN_BR_XL_TSEG2, PCAN_BR_XL_SJW, PCAN_BR_XL_SSP_OFFSET,
    PCAN_BR_XL_PWM_OFFSET, PCAN_BR_XL_PWM_SHORT, PCAN_BR_XL_PWM_LONG,
    PCAN_BR_XL_TRANSCEIVER_MODE_SWITCH, PCAN_BR_XL_ERROR_SIGNALING]

/-- The parameters the remarks of `InitializeFD` list as optional. -/
def InitializeFD_optional : List String :=
  ["data_ssp_offset", "nom_sam"]

/-- The parameters the remarks of `InitializeXL` require under a condition
("If xl_transceiver_mode_switch is active, also ...", "If error_signaling is
active, also ..."), in the order of the text. -/
def InitializeXL_conditional : List String :=
  ["xl_sjw", "xl_tseg1", "xl_tseg2", "fd_sjw", "fd_tseg1", "fd_tseg2"]

/-- The parameters the remarks of `InitializeXL` list as optional. -/
def InitializeXL_optional : List String :=
  ["fd_ssp_offset", "xl_ssp_offset", "xl_transceiver_mode_switch", "error_signaling",
    "xl_pwm_offset", "xl_pwm_short", "xl_pwm_long"]

end PCANBasic

/-! ## Order of classic timestamps -/

/-- The lexicographic order on `(millis_overflow, millis, micros)`. -/
def TPCANTimestamp.lexLt (a b : TPCANTimestamp) : Prop :=
  a.millis_overflow < b.millis_overflow ∨
    (a.millis_overflow = b.millis_overflow ∧
      (a.millis < b.millis ∨ (a.millis = b.millis ∧ a.micros < b.micros)))

instance (a b : TPCANTimestamp) : Decidable (a.lexLt b) := by
  unfold TPCANTimestamp.lexLt
  infer_instance

/-- A timestamp within the range of its types whose `micros` is within the
documented range `0..999`. -/
def TPCANTimestamp.isDocumented (t : TPCANTimestamp) : Prop :=
  t.inRange ∧ t.micros ≤ 999

instance (t : TPCANTimestamp) : Decidable t.isDocumented := by
  unfold TPCANTimestamp.isDocumented
  infer_instance

/-! ## Reading the payload -/

/-- Whether `DATA[i]` of a classic message is an element of its managed array. -/
def TPCANMsg.validIndex (m : TPCANMsg) (i : Nat) : Bool :=
  (m.DATA[i]?).isSome

/-- Whether `DATA[i]` of a XL message is an element of its managed array. -/
def TPCANMsgXL.validIndex (m : TPCANMsgXL) (i : Nat) : Bool :=
  (m.DATA[i]?).isSome

/-- The managed `DATA` array of a classic message has the number of bytes the
declaration of the member fixes for the marshalled array. -/
def TPCANMsg.hasDeclaredPayload (m : TPCANMsg) : Prop :=
  m.payloadSize = some m.DATA.length

instance (m : TPCANMsg) : Decidable m.hasDeclaredPayload := by
  unfold TPCANMsg.hasDeclaredPayload
  infer_instance

/-- The managed `DATA` array of a XL message has the number of bytes the
declaration of the member fixes for the marshalled array. -/
def TPCANMsgXL.hasDeclaredPayload (m : TPCANMsgXL) : Prop :=
  m.payloadSize = some m.DATA.length

instance (m : TPCANMsgXL) : Decidable m.hasDeclaredPayload := by
  unfold TPCANMsgXL.hasDeclaredPayload
  infer_instance

/-! ## Arithmetic of the buffer length -/

/-- An `int` product converted to `UInt32` is the exact product modulo `2 ^ 32`. -/
theorem toUInt32_mulInt32 (x y : Int) : toUInt32 (mulInt32 x y) = ((x * y) % 2 ^ 32).toNat := by
  unfold toUInt32 mulInt32
  congr 1
  omega

/-- For natural operands whose product fits in 32 bits the conversion is exact. -/
theorem toUInt32_mulInt32_of_lt (n m : Nat) (h : n * m < 2 ^ 32) :
    toUInt32 (mulInt32 (n : Int) (m : Int)) = n * m := by
  rw [toUInt32_mulInt32]
  have h1 : ((n : Int) * (m : Int)) = ((n * m : Nat) : Int) := by push_cast; rfl
  rw [h1]
  have h2 : ((n * m : Nat) : Int) % 2 ^ 32 = ((n * m : Nat) : Int) := by
    apply Int.emod_eq_of_lt
    · exact Int.ofNat_nonneg _
    · exact_mod_cast h
  rw [h2]
  exact Int.toNat_ofNat _

/-! ## The wrappers forward to the native library -/

/-- C1: the two-argument `Initialize(Channel, Btr0Btr1)` returns, for every
channel and baud-rate code, exactly the result of the native `CAN_Initialize`
called with the same channel and code and the three deprecated parameters 0;
on a journalled library it adds exactly that one call to the journal. -/
theorem Initialize_forwards {σ : Type} (N : NativeLibrary σ) (Channel : TPCANHandle)
    (Btr0Btr1 : TPCANBaudrate) (s : σ) (journal : List NativeCall) :
    PCANBasic.Initialize N Channel Btr0Btr1 s = N.CAN_Initialize Channel Btr0Btr1 0 0 0 s ∧
    PCANBasic.Initialize N.traced Channel Btr0Btr1 (s, journal) =
      ((N.CAN_Initialize Channel Btr0Btr1 0 0 0 s).1,
        ((N.CAN_Initialize Channel Btr0Btr1 0 0 0 s).2,
          journal ++ [NativeCall.CAN_Initialize Channel Btr0Btr1 0 0 0])) := by
  constructor <;> rfl

/-- C2: each two-argument read overload (`Read`, `ReadFD`, `ReadXL`) returns
the status and the message of its own entry point (`CAN_Read`, `CAN_ReadFD`,
`CAN_ReadXL`) called with the same channel, the same message buffer and a
zero timestamp pointer; on a journalled library the journal grows by exactly
that one call. -/
theorem Read_overloads_forward {σ : Type} (N : NativeLibrary σ) (Channel : TPCANHandle)
    (msg : TPCANMsg) (msgFD : TPCANMsgFD) (msgXL : TPCANMsgXL) (s : σ)
    (journal : List NativeCall) :
    (PCANBasic.Read N.traced Channel msg (s, journal) =
      ((N.CAN_Read Channel msg (.intPtr 0) s).1, (N.CAN_Read Channel msg (.intPtr 0) s).2.1,
        ((N.CAN_Read Channel msg (.intPtr 0) s).2.2.2,
          journal ++ [NativeCall.CAN_Read Channel msg (.intPtr 0)]))) ∧
    (PCANBasic.ReadFD N.traced Channel msgFD (s, journal) =
      ((N.CAN_ReadFD Channel msgFD (.intPtr 0) s).1,
        (N.CAN_ReadFD Channel msgFD (.intPtr 0) s).2.1,
        ((N.CAN_ReadFD Channel msgFD (.intPtr 0) s).2.2.2,
          journal ++ [NativeCall.CAN_ReadFD Channel msgFD (.intPtr 0)]))) ∧
    (PCANBasic.ReadXL N.traced Channel msgXL (s, journal) =
      ((N.CAN_ReadXL Channel msgXL (.intPtr 0) s).1,
        (N.CAN_ReadXL Channel msgXL (.intPtr 0) s).2.1,
        ((N.CAN_ReadXL Channel msgXL (.intPtr 0) s).2.2.2,
          journal ++ [NativeCall.CAN_ReadXL Channel msgXL (.intPtr 0)]))) := by
  refine ⟨rfl, rfl, rfl⟩

/-- C3: with a null array reference the three-argument `GetValue` returns
`PCAN_ERROR_ILLPARAMVAL`, which is `0x08000`, as an ordinary result (no
exception), and leaves driver state and journal untouched: no native call. -/
theorem GetValue_null_reference {σ : Type} (N : NativeLibrary σ) (sizeOf : Int)
    (Channel : TPCANHandle) (Parameter : TPCANParameter) (s : σ) (journal : List NativeCall) :
    PCANBasic.GetValue N.traced sizeOf Channel Parameter none (s, journal) =
      .ok (TPCANStatus.PCAN_ERROR_ILLPARAMVAL, .channels none, (s, journal)) ∧
    TPCANStatus.PCAN_ERROR_ILLPARAMVAL = 0x08000 := by
  constructor <;> rfl

/-- C4, as stated, fails: with a non-null array of length 0 the wrapper does
call the native library (the journal holds one `CAN_GetValue` call with
`BufferLength` 0) and returns what the library answered, here `PCAN_ERROR_OK`,
which is not `PCAN_ERROR_ILLPARAMVAL`. -/
theorem GetValue_zero_capacity_calls_native :
    PCANBasic.GetValue NativeLibrary.idle.traced 52 0x51 43 (some #[]) ((), []) =
      .ok (TPCANStatus.PCAN_ERROR_OK, .channels (some #[]),
        ((), [NativeCall.CAN_GetValue 0x51 43 (.channels (some #[])) 0])) ∧
    TPCANStatus.PCAN_ERROR_OK ≠ TPCANStatus.PCAN_ERROR_ILLPARAMVAL := by
  constructor
  · rfl
  · decide

/-- For every non-null array the wrapper forwards to the native library: the
result is the one of `CAN_GetValue`, called with the `int` product of length
and size converted to `UInt32`, and the journal grows by exactly that call. -/
theorem GetValue_of_some {σ : Type} (N : NativeLibrary σ) (sizeOf : Int)
    (Channel : TPCANHandle) (Parameter : TPCANParameter)
    (a : Array TPCANChannelInformation) (s : σ) (journal : List NativeCall) :
    PCANBasic.GetValue N.traced sizeOf Channel Parameter (some a) (s, journal) =
      .ok ((N.CAN_GetValue Channel Parameter (.channels (some a))
            (toUInt32 (mulInt32 (a.size : Int) sizeOf)) s).1,
        (N.CAN_GetValue Channel Parameter (.channels (some a))
            (toUInt32 (mulInt32 (a.size : Int) sizeOf)) s).2.1,
        ((N.CAN_GetValue Channel Parameter (.channels (some a))
            (toUInt32 (mulInt32 (a.size : Int) sizeOf)) s).2.2,
          journal ++ [NativeCall.CAN_GetValue Channel Parameter (.channels (some a))
            (toUInt32 (mulInt32 (a.size : Int) sizeOf))])) := by
  simp only [PCANBasic.GetValue, Option.isNone_some, arrayLength]
  rfl

/-- C4, amended: with a non-null array of length 0 the wrapper makes exactly
one native `CAN_GetValue` call, with `BufferLength` 0, and returns the status
of that call unchanged, whatever the library and the marshalled size are;
every non-null array leads to exactly one native call; and only a null array
reference returns `PCAN_ERROR_ILLPARAMVAL` without a native call: the journal
is left as it was exactly when the reference is null. -/
theorem GetValue_zero_capacity_forwards {σ : Type} (N : NativeLibrary σ) (sizeOf : Int)
    (Channel : TPCANHandle) (Parameter : TPCANParameter) (s : σ) (journal : List NativeCall) :
    (PCANBasic.GetValue N.traced sizeOf Channel Parameter (some #[]) (s, journal) =
      .ok ((N.CAN_GetValue Channel Parameter (.channels (some #[])) 0 s).1,
        (N.CAN_GetValue Channel Parameter (.channels (some #[])) 0 s).2.1,
        ((N.CAN_GetValue Channel Parameter (.channels (some #[])) 0 s).2.2,
          journal ++ [NativeCall.CAN_GetValue Channel Parameter (.channels (some #[])) 0]))) ∧
    (∀ a : Array TPCANChannelInformation,
      PCANBasic.GetValue N.traced sizeOf Channel Parameter (some a) (s, journal) =
        .ok ((N.CAN_GetValue Channel Parameter (.channels (some a))
              (toUInt32 (mulInt32 (a.size : Int) sizeOf)) s).1,
          (N.CAN_GetValue Channel Parameter (.channels (some a))
              (toUInt32 (mulInt32 (a.size : Int) sizeOf)) s).2.1,
          ((N.CAN_GetValue Channel Parameter (.channels (some a))
              (toUInt32 (mulInt32 (a.size : Int) sizeOf)) s).2.2,
            journal ++ [NativeCall.CAN_GetValue Channel Parameter (.channels (some a))
              (toUInt32 (mulInt32 (a.size : Int) sizeOf))]))) ∧
    (PCANBasic.GetValue N.traced sizeOf Channel Parameter none (s, journal) =
      .ok (TPCANStatus.PCAN_ERROR_ILLPARAMVAL, .channels none, (s, journal))) ∧
    (∀ b : Option (Array TPCANChannelInformation),
      (∃ status buffer s1, PCANBasic.GetValue N.traced sizeOf Channel Parameter b (s, journal) =
        .ok (status, buffer, (s1, journal))) ↔ b = none) := by
  have h0 : toUInt32 (mulInt32 ((#[] : Array TPCANChannelInformation).size : Int) sizeOf) = 0 := by
    simp [toUInt32, mulInt32]
  refine ⟨?_, fun a => GetValue_of_some N sizeOf Channel Parameter a s journal, rfl, ?_⟩
  · rw [GetValue_of_some, h0]
  · intro b
    constructor
    · rintro ⟨status, buffer, s1, h⟩
      cases b with
      | none => rfl
      | some a =>
        rw [GetValue_of_some] at h
        have h1 := congrArg (fun r => (r.2.2.2).length) (Except.ok.inj h)
        simp at h1
    · rintro rfl
      exact ⟨TPCANStatus.PCAN_ERROR_ILLPARAMVAL, .channels none, s, rfl⟩

/-- C5, as stated, fails: for an array of 82595525 descriptors of 52 bytes the
`int` product overflows and the native call receives `BufferLength` 4, not
the product 4294967300. -/
theorem GetValue_length_wraps :
    PCANBasic.GetValue NativeLibrary.idle.traced 52 0x51 43
        (some (Array.mkArray 82595525 default)) ((), []) =
      .ok (TPCANStatus.PCAN_ERROR_OK, .channels (some (Array.mkArray 82595525 default)),
        ((), [NativeCall.CAN_GetValue 0x51 43
          (.channels (some (Array.mkArray 82595525 default))) 4])) ∧
    (4 : Nat) ≠ (Array.mkArray 82595525 (default : TPCANChannelInformation)).size * 52 := by
  have h : toUInt32 (mulInt32
      ((Array.mkArray 82595525 (default : TPCANChannelInformation)).size : Int) 52) = 4 := by
    rw [Array.size_mkArray]
    decide
  constructor
  · simp only [PCANBasic.GetValue, Option.isNone_some, arrayLength]
    show Except.ok (PCANBasic.GetValue_ChannelBuffer NativeLibrary.idle.traced 0x51 43
      (some (Array.mkArray 82595525 default))
      (toUInt32 (mulInt32
        ((Array.mkArray 82595525 (default : TPCANChannelInformation)).size : Int) 52))
      ((), [])) = _
    rw [h]
    rfl
  · rw [Array.size_mkArray]
    decide

/-- C5, amended: for a non-null array whose size in bytes (element count times
marshalled size of one descriptor) is below `2 ^ 32`, the wrapper makes exactly
one native `CAN_GetValue` call with the same channel, parameter and array and
with `BufferLength` equal to that product, and returns its status unchanged. -/
theorem GetValue_forwards {σ : Type} (N : NativeLibrary σ) (sizeOf : Nat)
    (Channel : TPCANHandle) (Parameter : TPCANParameter)
    (ChannelsBuffer : Array TPCANChannelInformation) (s : σ) (journal : List NativeCall)
    (h : ChannelsBuffer.size * sizeOf < 2 ^ 32) :
    PCANBasic.GetValue N.traced (sizeOf : Int) Channel Parameter (some ChannelsBuffer)
        (s, journal) =
      .ok ((N.CAN_GetValue Channel Parameter (.channels (some ChannelsBuffer))
            (ChannelsBuffer.size * sizeOf) s).1,
        (N.CAN_GetValue Channel Parameter (.channels (some ChannelsBuffer))
            (ChannelsBuffer.size * sizeOf) s).2.1,
        ((N.CAN_GetValue Channel Parameter (.channels (some ChannelsBuffer))
            (ChannelsBuffer.size * sizeOf) s).2.2,
          journal ++ [NativeCall.CAN_GetValue Channel Parameter
            (.channels (some ChannelsBuffer)) (ChannelsBuffer.size * sizeOf)])) := by
  simp only [PCANBasic.GetValue, Option.isNone_some, arrayLength]
  show Except.ok (PCANBasic.GetValue_ChannelBuffer N.traced Channel Parameter
    (some ChannelsBuffer) (toUInt32 (mulInt32 (ChannelsBuffer.size : Int) (sizeOf : Int)))
    (s, journal)) = _
  rw [toUInt32_mulInt32_of_lt _ _ h]
  rfl

/-- Witness for C5: two descriptors of 52 bytes give `BufferLength` 104. -/
theorem GetValue_forwards_witness :
    (#[default, default] : Array TPCANChannelInformation).size * 52 < 2 ^ 32 ∧
    PCANBasic.GetValue NativeLibrary.idle.traced ((52 : Nat) : Int) 0x51 43
        (some #[default, default]) ((), []) =
      .ok (TPCANStatus.PCAN_ERROR_OK, .channels (some #[default, default]),
        ((), [] ++ [NativeCall.CAN_GetValue 0x51 43 (.channels (some #[default, default]))
          (2 * 52)])) :=
  ⟨by decide, GetValue_forwards NativeLibrary.idle 52 0x51 43 #[default, default] () []
    (by decide)⟩

/-! ## The table of external declarations -/

/-- C7: every `[DllImport]` declaration of `PCANBasic` names the library
`PCANBasic.dll` and the entry point `CAN_` followed by the managed method
name; two declarations with the same entry point have the same method name;
and the declared methods are exactly the seventeen methods of the class. -/
theorem dllImports_entry_points :
    (∀ d ∈ PCANBasic.dllImports,
      d.dllName = "PCANBasic.dll" ∧ d.EntryPoint = "CAN_" ++ d.method) ∧
    (∀ d ∈ PCANBasic.dllImports, ∀ e ∈ PCANBasic.dllImports,
      d.EntryPoint = e.EntryPoint → d.method = e.method) ∧
    (PCANBasic.dllImports.map (fun d => d.method)).dedup = PCANBasic.importedMethods ∧
    PCANBasic.dllImports.length = 25 := by
  refine ⟨by decide, by decide, by decide, by decide⟩

/-! ## Payload regions -/

/-- C8: the payload region of a message has a marshalled size fixed by the
declaration of `DATA`: 8 bytes for every `TPCANMsg` whatever `LEN` is, 64 bytes
for every `TPCANMsgFD` whatever `DLC` is, and 2048 bytes, which is
`MAX_LENGTH_DATA_XL`, for every `TPCANMsgXL` whatever `DLC` is. -/
theorem payloadSize_fixed :
    (∀ (m : TPCANMsg) (LEN : Nat), TPCANMsg.payloadSize { m with LEN := LEN } = some 8) ∧
    (∀ (m : TPCANMsgFD) (DLC : Nat), TPCANMsgFD.payloadSize { m with DLC := DLC } = some 64) ∧
    (∀ (m : TPCANMsgXL) (DLC : Nat),
      TPCANMsgXL.payloadSize { m with DLC := DLC } = some 2048 ∧
      TPCANMsgXL.payloadSize { m with DLC := DLC } = some MAX_LENGTH_DATA_XL) := by
  have h8 : fieldSize TPCANMsg.fields "DATA" = some 8 := by decide
  have h64 : fieldSize TPCANMsgFD.fields "DATA" = some 64 := by decide
  have h2048 : fieldSize TPCANMsgXL.fields "DATA" = some 2048 := by decide
  exact ⟨fun _ _ => h8, fun _ _ => h64, fun _ _ => ⟨h2048, h2048⟩⟩

/-! ## Masks of the status enumeration -/

/-- C9: `PCAN_ERROR_ANYBUSERR` is the bitwise OR of `PCAN_ERROR_BUSLIGHT`,
`PCAN_ERROR_BUSHEAVY` (which equals `PCAN_ERROR_BUSWARNING`), `PCAN_ERROR_BUSOFF`
and `PCAN_ERROR_BUSPASSIVE`, that is `0x4001C`, and a named status code meets
the mask in a non-zero value exactly when it is one of those bus-error codes
or the mask itself. -/
theorem anybuserr_is_bus_error_mask :
    TPCANStatus.PCAN_ERROR_ANYBUSERR =
      (TPCANStatus.PCAN_ERROR_BUSLIGHT ||| TPCANStatus.PCAN_ERROR_BUSHEAVY
        ||| TPCANStatus.PCAN_ERROR_BUSOFF ||| TPCANStatus.PCAN_ERROR_BUSPASSIVE) ∧
    TPCANStatus.PCAN_ERROR_BUSHEAVY = TPCANStatus.PCAN_ERROR_BUSWARNING ∧
    TPCANStatus.PCAN_ERROR_ANYBUSERR = 0x4001C ∧
    ∀ c : TPCANStatusName,
      (c.value &&& TPCANStatus.PCAN_ERROR_ANYBUSERR ≠ 0 ↔
        c.value = TPCANStatus.PCAN_ERROR_BUSLIGHT ∨ c.value = TPCANStatus.PCAN_ERROR_BUSHEAVY ∨
        c.value = TPCANStatus.PCAN_ERROR_BUSWARNING ∨ c.value = TPCANStatus.PCAN_ERROR_BUSOFF ∨
        c.value = TPCANStatus.PCAN_ERROR_BUSPASSIVE ∨
        c.value = TPCANStatus.PCAN_ERROR_ANYBUSERR) := by
  refine ⟨by decide, by decide, by decide, ?_⟩
  intro c
  cases c <;> decide

/-- C10, as stated, fails: `PCAN_ERROR_HWINUSE` meets the mask
`PCAN_ERROR_ILLHANDLE` in a non-zero value although it is none of
`PCAN_ERROR_ILLHW`, `PCAN_ERROR_ILLNET`, `PCAN_ERROR_ILLCLIENT` and the mask. -/
theorem illhandle_mask_meets_hwinuse :
    ¬ (TPCANStatusName.PCAN_ERROR_HWINUSE.value &&& TPCANStatus.PCAN_ERROR_ILLHANDLE ≠ 0 ↔
        TPCANStatusName.PCAN_ERROR_HWINUSE.value = TPCANStatus.PCAN_ERROR_ILLHW ∨
        TPCANStatusName.PCAN_ERROR_HWINUSE.value = TPCANStatus.PCAN_ERROR_ILLNET ∨
        TPCANStatusName.PCAN_ERROR_HWINUSE.value = TPCANStatus.PCAN_ERROR_ILLCLIENT ∨
        TPCANStatusName.PCAN_ERROR_HWINUSE.value = TPCANStatus.PCAN_ERROR_ILLHANDLE) := by
  decide

/-- C10, amended: `PCAN_ERROR_ILLHANDLE` is the OR of the three handle errors,
`0x1C00`, and a named status code meets it in a non-zero value exactly when it
is one of `PCAN_ERROR_ILLHW`, `PCAN_ERROR_ILLNET`, `PCAN_ERROR_ILLCLIENT`, the
mask itself, or one of the two in-use codes `PCAN_ERROR_HWINUSE` and
`PCAN_ERROR_NETINUSE`, whose bits the handle errors contain. -/
theorem illhandle_mask_members :
    TPCANStatus.PCAN_ERROR_ILLHANDLE = 0x1C00 ∧
    ∀ c : TPCANStatusName,
      (c.value &&& TPCANStatus.PCAN_ERROR_ILLHANDLE ≠ 0 ↔
        c.value = TPCANStatus.PCAN_ERROR_ILLHW ∨ c.value = TPCANStatus.PCAN_ERROR_ILLNET ∨
        c.value = TPCANStatus.PCAN_ERROR_ILLCLIENT ∨
        c.value = TPCANStatus.PCAN_ERROR_ILLHANDLE ∨
        c.value = TPCANStatus.PCAN_ERROR_HWINUSE ∨
        c.value = TPCANStatus.PCAN_ERROR_NETINUSE) := by
  refine ⟨by decide, ?_⟩
  intro c
  cases c <;> decide

/-! ## Flag semantics of the status enumeration -/

/-- A number contains the bit `2 ^ k` exactly when its bit `k` is set. -/
theorem and_two_pow_eq_iff (n k : Nat) : n &&& 2 ^ k = 2 ^ k ↔ n.testBit k = true := by
  constructor
  · intro h
    have h1 := congrArg (fun m => Nat.testBit m k) h
    simpa [Nat.testBit_and, Nat.testBit_two_pow_self] using h1
  · intro h
    apply Nat.eq_of_testBit_eq
    intro i
    rw [Nat.testBit_and, Nat.testBit_two_pow]
    by_cases hki : k = i
    · subst hki
      simp [h]
    · simp [hki]

/-- The value of a flag is the single bit at its bit index. -/
theorem value_eq_two_pow_bitIndex (c : TPCANStatusName) (hc : c.isFlag = true) :
    c.value = 2 ^ c.bitIndex := by
  revert hc
  cases c <;> decide

/-- Among the flags, only a flag itself has the bit of that flag. -/
theorem flag_testBit_iff (x c : TPCANStatusName) (hx : x.isFlag = true) (hc : c.isFlag = true) :
    x.value.testBit c.bitIndex = true ↔ x = c := by
  revert hx hc
  cases x <;> cases c <;> decide

/-- The bit of a flag is set in the status word of `S` exactly when the flag is in `S`. -/
theorem statusOf_testBit_iff (S : List TPCANStatusName) (c : TPCANStatusName)
    (hS : ∀ x ∈ S, x.isFlag = true) (hc : c.isFlag = true) :
    (statusOf S).testBit c.bitIndex = true ↔ c ∈ S := by
  induction S with
  | nil => simp [statusOf]
  | cons x S ih =>
    have hx : x.isFlag = true := hS x (List.mem_cons_self x S)
    have hS1 : ∀ y ∈ S, y.isFlag = true := fun y hy => hS y (List.mem_cons_of_mem x hy)
    have hstep : statusOf (x :: S) = x.value ||| statusOf S := rfl
    rw [hstep, Nat.testBit_or, Bool.or_eq_true, flag_testBit_iff x c hx hc, ih hS1,
      List.mem_cons]
    constructor
    · rintro (h | h)
      · exact Or.inl h.symm
      · exact Or.inr h
    · rintro (h | h)
      · exact Or.inl h.symm
      · exact Or.inr h

/-- C11, as stated, fails: `PCAN_ERROR_ILLHW` and `PCAN_ERROR_HWINUSE` are both
named conditions, and the status word of the set that holds only
`PCAN_ERROR_ILLHW` contains all bits of `PCAN_ERROR_HWINUSE`, which is not in
the set. -/
theorem status_flags_fail_for_illhw :
    TPCANStatusName.PCAN_ERROR_ILLHW.isCondition = true ∧
    TPCANStatusName.PCAN_ERROR_HWINUSE.isCondition = true ∧
    ¬ (statusOf [TPCANStatusName.PCAN_ERROR_ILLHW] &&& TPCANStatusName.PCAN_ERROR_HWINUSE.value
          = TPCANStatusName.PCAN_ERROR_HWINUSE.value ↔
        TPCANStatusName.PCAN_ERROR_HWINUSE ∈ [TPCANStatusName.PCAN_ERROR_ILLHW]) := by
  decide

/-- No flag has bit 12; each handle error has it. -/
theorem testBit_twelve (c : TPCANStatusName) :
    (c.isFlag = true → c.value.testBit 12 = false) ∧
    (c.isCondition = true → c.isFlag = false → c.value.testBit 12 = true) := by
  cases c <;> decide

/-- Bit 12 is not set in a status word built from flags. -/
theorem statusOf_testBit_twelve (S : List TPCANStatusName) (hS : ∀ x ∈ S, x.isFlag = true) :
    (statusOf S).testBit 12 = false := by
  induction S with
  | nil => simp [statusOf]
  | cons x S ih =>
    have hx : x.value.testBit 12 = false := (testBit_twelve x).1 (hS x (List.mem_cons_self x S))
    have hS1 : (statusOf S).testBit 12 = false :=
      ih (fun y hy => hS y (List.mem_cons_of_mem x hy))
    have hstep : statusOf (x :: S) = x.value ||| statusOf S := rfl
    rw [hstep, Nat.testBit_or, hx, hS1]
    rfl

/-- C11, amended: for every set `S` of named conditions other than the three
handle errors, the status word obtained by OR-ing the members of `S`
satisfies, for every named condition `c`, the handle errors included,
`(s & c) == c` exactly when `c` is in `S`. -/
theorem status_flags_semantics (S : List TPCANStatusName) (c : TPCANStatusName)
    (hS : ∀ x ∈ S, x.isFlag = true) (hc : c.isCondition = true) :
    statusOf S &&& c.value = c.value ↔ c ∈ S := by
  cases hf : c.isFlag
  · have hbit : c.value.testBit 12 = true := (testBit_twelve c).2 hc hf
    constructor
    · intro h
      have h1 := congrArg (fun m => Nat.testBit m 12) h
      simp only [Nat.testBit_and, statusOf_testBit_twelve S hS, hbit] at h1
      exact absurd h1 (by decide)
    · intro h
      have h2 := hS c h
      rw [hf] at h2
      exact absurd h2 (by decide)
  · rw [value_eq_two_pow_bitIndex c hf, and_two_pow_eq_iff]
    exact statusOf_testBit_iff S c hS hf

/-- Witness for C11: a bus warning combined with a queue overrun.  The status
word is `0x48`; the queue overrun is found in it. -/
theorem status_flags_semantics_witness :
    (∀ x ∈ [TPCANStatusName.PCAN_ERROR_BUSHEAVY, TPCANStatusName.PCAN_ERROR_QOVERRUN],
      x.isFlag = true) ∧
    TPCANStatusName.PCAN_ERROR_QOVERRUN.isCondition = true ∧
    (statusOf [TPCANStatusName.PCAN_ERROR_BUSHEAVY, TPCANStatusName.PCAN_ERROR_QOVERRUN]
        &&& TPCANStatusName.PCAN_ERROR_QOVERRUN.value
        = TPCANStatusName.PCAN_ERROR_QOVERRUN.value ↔
      TPCANStatusName.PCAN_ERROR_QOVERRUN ∈
        [TPCANStatusName.PCAN_ERROR_BUSHEAVY, TPCANStatusName.PCAN_ERROR_QOVERRUN]) :=
  ⟨by decide, by decide,
    status_flags_semantics [TPCANStatusName.PCAN_ERROR_BUSHEAVY, TPCANStatusName.PCAN_ERROR_QOVERRUN]
      TPCANStatusName.PCAN_ERROR_QOVERRUN (by decide) (by decide)⟩

/-! ## Channel handles -/

/-- C12: `PCAN_NONEBUS` is 0; the class declares 49 handle constants, their
values are pairwise distinct and each is below `2 ^ 16`; so no handle of a
PCI, USB or LAN channel equals `PCAN_NONEBUS`. -/
theorem busHandles_distinct :
    PCANBasic.PCAN_NONEBUS = 0 ∧
    PCANBasic.busHandles.length = 49 ∧
    (PCANBasic.busHandles.map Prod.snd).Nodup ∧
    (∀ h ∈ PCANBasic.busHandles, h.2 < 2 ^ 16) ∧
    (∀ h ∈ PCANBasic.busHandles.tail, h.2 ≠ PCANBasic.PCAN_NONEBUS) ∧
    PCANBasic.busHandles.head? = some ("PCAN_NONEBUS", PCANBasic.PCAN_NONEBUS) := by
  refine ⟨by decide, by decide, by decide, by decide, by decide, by decide⟩

/-! ## Remapped status codes -/

/-- C13: `PCAN_ERROR_INITIALIZE` is `0x4000000` and `PCAN_ERROR_ILLOPERATION` is
`0x8000000`, and no other name of the status enumeration has either value. -/
theorem remapped_codes_unique :
    TPCANStatus.PCAN_ERROR_INITIALIZE = 0x4000000 ∧
    TPCANStatus.PCAN_ERROR_ILLOPERATION = 0x8000000 ∧
    ∀ c : TPCANStatusName,
      (c.value = 0x4000000 ↔ c = TPCANStatusName.PCAN_ERROR_INITIALIZE) ∧
      (c.value = 0x8000000 ↔ c = TPCANStatusName.PCAN_ERROR_ILLOPERATION) := by
  refine ⟨by decide, by decide, ?_⟩
  intro c
  cases c <;> decide

/-! ## Layout of the channel descriptor -/

/-- C14: under sequential member order with natural alignment and one-byte
characters, `TPCANChannelInformation` has `channel_handle` at offset 0 (2
bytes), `device_type` at 2 (1 byte), `controller_number` at 3 (1 byte),
`device_features` at 4 (4 bytes), `device_name` at 8 (33 bytes, which is
`MAX_LENGTH_HARDWARE_NAME`), `device_id` at 44 and `channel_condition` at 48
(4 bytes each), and a total size of 52 bytes. -/
theorem channelInformation_layout :
    fieldOffsets TPCANChannelInformation.fields =
      [("channel_handle", 0), ("device_type", 2), ("controller_number", 3),
        ("device_features", 4), ("device_name", 8), ("device_id", 44),
        ("channel_condition", 48)] ∧
    TPCANChannelInformation.fields.map (fun f => f.type.size) = [2, 1, 1, 4, 33, 4, 4] ∧
    fieldSize TPCANChannelInformation.fields "device_name" = some MAX_LENGTH_HARDWARE_NAME ∧
    structSize TPCANChannelInformation.fields = 52 := by
  refine ⟨by decide, by decide, by decide, by decide⟩

/-! ## Overloads of the value accessors -/

/-- C15, as stated, fails: the class has no public `SetValue` overload that
takes a channel-descriptor array. -/
theorem SetValue_has_no_channel_array_overload :
    PCANBasic.hasPublicOverload "SetValue" PayloadKind.channelArray = false := by
  decide

/-- C15, amended: `GetValue` has a public overload for each of the four payload
kinds (string, 32-bit unsigned, 64-bit unsigned, channel-descriptor array);
`SetValue` has a public overload for string, 32-bit unsigned and 64-bit
unsigned payloads, and no `SetValue` declaration at all takes a
channel-descriptor array. -/
theorem value_accessor_overloads :
    (∀ k : PayloadKind, PCANBasic.hasPublicOverload "GetValue" k = true) ∧
    (∀ k : PayloadKind,
      PCANBasic.hasPublicOverload "SetValue" k = true ↔ k ≠ PayloadKind.channelArray) ∧
    (∀ m ∈ PCANBasic.methods, m.method = "SetValue" →
      "array<TPCANChannelInformation>^" ∉ m.parameters) := by
  refine ⟨?_, ?_, by decide⟩
  · intro k
    cases k <;> decide
  · intro k
    cases k <;> decide

/-! ## Identifier limits -/

/-- C17: `MAX_VALUE_STANDARD_ID` is `0x7FF`, the largest 11-bit value, and
`MAX_VALUE_EXTENDED_ID` is `0x1FFFFFFF`, the largest 29-bit value; the widths
are the ones documented for standard and extended frames; both limits fit in
the 4-byte `ID` member of `TPCANMsg` and `TPCANMsgFD`. -/
theorem max_id_values :
    MAX_VALUE_STANDARD_ID = 0x7FF ∧
    MAX_VALUE_STANDARD_ID = 2 ^ 11 - 1 ∧
    STANDARD_ID_BITS = 11 ∧
    MAX_VALUE_EXTENDED_ID = 0x1FFFFFFF ∧
    MAX_VALUE_EXTENDED_ID = 2 ^ 29 - 1 ∧
    EXTENDED_ID_BITS = 29 ∧
    fieldSize TPCANMsg.fields "ID" = some 4 ∧
    fieldSize TPCANMsgFD.fields "ID" = some 4 ∧
    MAX_VALUE_STANDARD_ID < 2 ^ (8 * 4) ∧
    MAX_VALUE_EXTENDED_ID < 2 ^ (8 * 4) := by
  refine ⟨by decide, by decide, by decide, by decide, by decide, by decide, by decide,
    by decide, by decide, by decide⟩

/-! ## The total of a classic timestamp -/

/-- C18: for every `TPCANTimestamp` whose members are within the range of
their types, the documented total is below `2 ^ 64`, and evaluating it in
unsigned 64-bit arithmetic gives the exact value: nothing wraps. -/
theorem totalMicroseconds_fits (t : TPCANTimestamp) (h : t.inRange) :
    t.totalMicroseconds < 2 ^ 64 ∧ t.totalMicroseconds64 = t.totalMicroseconds := by
  obtain ⟨h1, h2, h3⟩ := h
  unfold TPCANTimestamp.totalMicroseconds TPCANTimestamp.totalMicroseconds64
  norm_num at h1 h2 h3 ⊢
  omega

/-- Witness for C18: the largest timestamp, with every member at the maximum of its type. -/
theorem totalMicroseconds_fits_witness :
    (⟨2 ^ 32 - 1, 2 ^ 16 - 1, 2 ^ 16 - 1⟩ : TPCANTimestamp).inRange ∧
    (⟨2 ^ 32 - 1, 2 ^ 16 - 1, 2 ^ 16 - 1⟩ : TPCANTimestamp).totalMicroseconds < 2 ^ 64 ∧
    (⟨2 ^ 32 - 1, 2 ^ 16 - 1, 2 ^ 16 - 1⟩ : TPCANTimestamp).totalMicroseconds64 =
      (⟨2 ^ 32 - 1, 2 ^ 16 - 1, 2 ^ 16 - 1⟩ : TPCANTimestamp).totalMicroseconds :=
  ⟨by decide, totalMicroseconds_fits ⟨2 ^ 32 - 1, 2 ^ 16 - 1, 2 ^ 16 - 1⟩ (by decide)⟩

/-! ## Deprecated constants -/

/-- C19, as stated, fails: the documentation of the deprecated
`PCAN_BITRATE_INFO` names `PCAN_BITRATE_INFO_CC` as replacement, and the two
values differ (24 and 49). -/
theorem bitrate_info_differs_from_cc :
    TPCANParameter.PCAN_BITRATE_INFO ≠ TPCANParameter.PCAN_BITRATE_INFO_CC ∧
    TPCANParameter.PCAN_BITRATE_INFO = 24 ∧ TPCANParameter.PCAN_BITRATE_INFO_CC = 49 := by
  decide

/-- C19, amended: the deprecated `PCAN_BITRATE_INFO` has the value of
`PCAN_BITRATE_INFO_BTR` (24); `PCAN_BUSSPEED_DATA` equals `PCAN_BUSSPEED_FD`;
and `PCAN_BR_DATA_SAMPLE` equals `PCAN_BR_DATA_SSP_OFFSET`. -/
theorem deprecated_constants :
    TPCANParameter.PCAN_BITRATE_INFO = TPCANParameter.PCAN_BITRATE_INFO_BTR ∧
    TPCANParameter.PCAN_BITRATE_INFO = 24 ∧
    TPCANParameter.PCAN_BUSSPEED_DATA = TPCANParameter.PCAN_BUSSPEED_FD ∧
    PCANBasic.PCAN_BR_DATA_SAMPLE = PCANBasic.PCAN_BR_DATA_SSP_OFFSET := by
  refine ⟨by decide, by decide, by decide, by decide⟩

/-! ## The documented example bit rate strings -/

/-- C20: at the example of `InitializeXL` the documentation breaks its own
rule.  The example has the parameters listed below; `nom_brp`, which the
remarks list under "must be filled out", is not among them, while the other
five mandatory parameters are.  The example of `InitializeFD` has all nine
parameters its remarks require. -/
theorem InitializeXL_example_lacks_nom_brp :
    PCANBasic.bitrateKeys PCANBasic.InitializeXL_example =
      ["f_clock", "brp", "nom_tseg1", "nom_tseg2", "nom_sjw", "fd_tseg1", "fd_tseg2", "fd_sjw",
        "fd_ssp_offset", "xl_tseg1", "xl_tseg2", "xl_sjw", "xl_ssp_offset",
        "xl_error_signaling", "xl_transceiver_mode_switch"] ∧
    "nom_brp" ∈ PCANBasic.InitializeXL_mandatory ∧
    "nom_brp" ∉ PCANBasic.bitrateKeys PCANBasic.InitializeXL_example ∧
    (∀ k ∈ PCANBasic.InitializeXL_mandatory, k ≠ "nom_brp" →
      k ∈ PCANBasic.bitrateKeys PCANBasic.InitializeXL_example) ∧
    (∀ k ∈ PCANBasic.InitializeFD_mandatory,
      k ∈ PCANBasic.bitrateKeys PCANBasic.InitializeFD_example) := by
  refine ⟨by decide, by decide, by decide, by decide, by decide⟩

/-! ## Parameter names of the bit rate strings -/

/-- C21: at `error_signaling` the documentation breaks its own naming.  The
remarks of `InitializeXL` list `error_signaling` as an optional parameter; no
`PCAN_BR_*` constant has that value (the constant `PCAN_BR_XL_ERROR_SIGNALING`
is `xl_error_signaling`).  Every other name the remarks of `InitializeFD` and
`InitializeXL` list, and every key of the two examples, is the value of a
`PCAN_BR_*` constant. -/
theorem InitializeXL_remarks_error_signaling :
    "error_signaling" ∈ PCANBasic.InitializeXL_optional ∧
    "error_signaling" ∉ PCANBasic.bitrateParameterNames ∧
    PCANBasic.PCAN_BR_XL_ERROR_SIGNALING = "xl_error_signaling" ∧
    (∀ k ∈ PCANBasic.InitializeFD_mandatory ++ PCANBasic.InitializeFD_optional ++
        PCANBasic.InitializeXL_mandatory ++ PCANBasic.InitializeXL_conditional ++
        PCANBasic.InitializeXL_optional,
      k ≠ "error_signaling" → k ∈ PCANBasic.bitrateParameterNames) ∧
    (∀ k ∈ PCANBasic.bitrateKeys PCANBasic.InitializeFD_example ++
        PCANBasic.bitrateKeys PCANBasic.InitializeXL_example,
      k ∈ PCANBasic.bitrateParameterNames) := by
  refine ⟨by decide, by decide, by decide, by decide, by decide⟩

/-! ## Payload indices -/

/-- The XL message of the witness has a `DATA` array of the declared size. -/
theorem hasDeclaredPayload_replicate :
    (⟨0, 0, 0x100, 2047, 0, 0, 0, 0, List.replicate 2048 0⟩ : TPCANMsgXL).hasDeclaredPayload := by
  show fieldSize TPCANMsgXL.fields "DATA" = some (List.replicate 2048 0).length
  rw [List.length_replicate]
  decide

/-- C23: for every `n` in `1..16`, `PCAN_PCIBUSn` is `0x40 + n` when `n ≤ 8` and
`0x400 + n` otherwise, `PCAN_USBBUSn` is `0x50 + n` when `n ≤ 8` and `0x500 + n`
otherwise, and `PCAN_LANBUSn` is `0x800 + n`; the device digit of each handle
is the `TPCANDevice` value of its family (4, 5, 8) and the bits below it are
`n`. -/
theorem handle_encoding (n : Nat) (h1 : 1 ≤ n) (h16 : n ≤ 16) :
    PCANBasic.pciHandles[n - 1]? = some (if n ≤ 8 then 0x40 + n else 0x400 + n) ∧
    PCANBasic.usbHandles[n - 1]? = some (if n ≤ 8 then 0x50 + n else 0x500 + n) ∧
    PCANBasic.lanHandles[n - 1]? = some (0x800 + n) ∧
    (PCANBasic.pciHandles[n - 1]?).map deviceDigit = some TPCANDevice.PCAN_PCI ∧
    (PCANBasic.usbHandles[n - 1]?).map deviceDigit = some TPCANDevice.PCAN_USB ∧
    (PCANBasic.lanHandles[n - 1]?).map deviceDigit = some TPCANDevice.PCAN_LAN ∧
    (PCANBasic.pciHandles[n - 1]?).map channelIndex = some n ∧
    (PCANBasic.usbHandles[n - 1]?).map channelIndex = some n ∧
    (PCANBasic.lanHandles[n - 1]?).map channelIndex = some n ∧
    TPCANDevice.PCAN_PCI = 4 ∧ TPCANDevice.PCAN_USB = 5 ∧ TPCANDevice.PCAN_LAN = 8 := by
  interval_cases n <;> decide

/-- Witness for C23: channel 9, the first one of the second numbering range. -/
theorem handle_encoding_witness :
    (1 ≤ 9 ∧ 9 ≤ 16) ∧
    PCANBasic.pciHandles[9 - 1]? = some (if 9 ≤ 8 then 0x40 + 9 else 0x400 + 9) ∧
    PCANBasic.usbHandles[9 - 1]? = some (if 9 ≤ 8 then 0x50 + 9 else 0x500 + 9) ∧
    PCANBasic.lanHandles[9 - 1]? = some (0x800 + 9) ∧
    (PCANBasic.pciHandles[9 - 1]?).map deviceDigit = some TPCANDevice.PCAN_PCI ∧
    (PCANBasic.usbHandles[9 - 1]?).map deviceDigit = some TPCANDevice.PCAN_USB ∧
    (PCANBasic.lanHandles[9 - 1]?).map deviceDigit = some TPCANDevice.PCAN_LAN ∧
    (PCANBasic.pciHandles[9 - 1]?).map channelIndex = some 9 ∧
    (PCANBasic.usbHandles[9 - 1]?).map channelIndex = some 9 ∧
    (PCANBasic.lanHandles[9 - 1]?).map channelIndex = some 9 ∧
    TPCANDevice.PCAN_PCI = 4 ∧ TPCANDevice.PCAN_USB = 5 ∧ TPCANDevice.PCAN_LAN = 8 :=
  ⟨by decide, handle_encoding 9 (by decide) (by decide)⟩

/-! ## Single-bit status codes -/

/-- A status word that meets no code of a list meets none of the bits of the list. -/
theorem and_statusOf_eq_zero (s : TPCANStatus) (L : List TPCANStatusName)
    (h : ∀ c ∈ L, s &&& c.value = 0) : s &&& statusOf L = 0 := by
  induction L with
  | nil => simp [statusOf]
  | cons x L ih =>
    have hx : s &&& x.value = 0 := h x (List.mem_cons_self x L)
    have hL : s &&& statusOf L = 0 := ih (fun c hc => h c (List.mem_cons_of_mem x hc))
    have hstep : statusOf (x :: L) = x.value ||| statusOf L := rfl
    rw [hstep, Nat.and_or_distrib_left, hx, hL]
    rfl

/-- C24, as stated, fails: the status word `0x100000` (bit 20 of the 32) is not
`PCAN_ERROR_OK`, and yet it meets no named code in any bit. -/
theorem unnamed_status_bit :
    (0x100000 : TPCANStatus) < 2 ^ 32 ∧
    (0x100000 : TPCANStatus) ≠ TPCANStatus.PCAN_ERROR_OK ∧
    ∀ c : TPCANStatusName, (0x100000 : TPCANStatus) &&& c.value = 0 := by
  refine ⟨by decide, by decide, ?_⟩
  intro c
  cases c <;> decide

/-- C24, amended: every named code other than `PCAN_ERROR_OK` (which is 0), the
three handle errors and the two masks is a single bit below `2 ^ 32`; two such
codes with the same value are the same name or the pair `PCAN_ERROR_BUSHEAVY`,
`PCAN_ERROR_BUSWARNING`; and a status word with no bit outside the named codes
(the bits `0xE0FFFFF`) equals `PCAN_ERROR_OK` exactly when it meets no named
code in any bit. -/
theorem single_bit_codes (s : TPCANStatus) (hs : s &&& namedStatusBits = s) :
    TPCANStatus.PCAN_ERROR_OK = 0 ∧
    (∀ c : TPCANStatusName, c.isSingleBitCode = true →
      c.value = 2 ^ c.bitIndex ∧ c.bitIndex < 32) ∧
    (∀ c d : TPCANStatusName, c.isSingleBitCode = true → d.isSingleBitCode = true →
      c.value = d.value →
      c = d ∨ (c = .PCAN_ERROR_BUSHEAVY ∧ d = .PCAN_ERROR_BUSWARNING) ∨
        (c = .PCAN_ERROR_BUSWARNING ∧ d = .PCAN_ERROR_BUSHEAVY)) ∧
    TPCANStatus.PCAN_ERROR_BUSWARNING = TPCANStatus.PCAN_ERROR_BUSHEAVY ∧
    namedStatusBits = 0xE0FFFFF ∧
    (s = TPCANStatus.PCAN_ERROR_OK ↔ ∀ c : TPCANStatusName, s &&& c.value = 0) := by
  refine ⟨by decide, ?_, ?_, by decide, by decide, ?_⟩
  · intro c
    cases c <;> decide
  · intro c d
    cases c <;> cases d <;> decide
  · constructor
    · intro h c
      rw [h]
      exact Nat.zero_and _
    · intro h
      have h0 : s &&& namedStatusBits = 0 :=
        and_statusOf_eq_zero s TPCANStatusName.all (fun c _ => h c)
      rw [hs] at h0
      exact h0

/-- Witness for C24: the status word `0x48`, a bus warning with a queue overrun. -/
theorem single_bit_codes_witness :
    (0x48 : TPCANStatus) &&& namedStatusBits = 0x48 ∧
    ((0x48 : TPCANStatus) = TPCANStatus.PCAN_ERROR_OK ↔
      ∀ c : TPCANStatusName, (0x48 : TPCANStatus) &&& c.value = 0) :=
  ⟨by decide, (single_bit_codes 0x48 (by decide)).2.2.2.2.2⟩

/-! ## Message type flags -/

/-- Among the names of `TPCANMessageType`, only a flag itself has the bit of that flag. -/
theorem messageType_testBit_iff (x n : TPCANMessageTypeName)
    (hn : n ≠ TPCANMessageTypeName.PCAN_MESSAGE_STANDARD) :
    x.value.testBit n.bitIndex = true ↔ x = n := by
  revert hn
  cases x <;> cases n <;> decide

/-- The bit of a flag is set in the OR over a list of names exactly when the
flag is in the list and selected. -/
theorem foldr_testBit_iff (S : TPCANMessageTypeName → Bool) (L : List TPCANMessageTypeName)
    (n : TPCANMessageTypeName) (hn : n ≠ TPCANMessageTypeName.PCAN_MESSAGE_STANDARD) :
    (L.foldr (fun m acc => if S m then m.value ||| acc else acc) 0).testBit n.bitIndex = true ↔
      n ∈ L ∧ S n = true := by
  induction L with
  | nil => simp
  | cons x L ih =>
    rw [List.foldr_cons, List.mem_cons]
    by_cases hx : S x = true
    · rw [if_pos hx, Nat.testBit_or, Bool.or_eq_true, messageType_testBit_iff x n hn, ih]
      constructor
      · rintro (h | h)
        · exact ⟨Or.inl h.symm, h ▸ hx⟩
        · exact ⟨Or.inr h.1, h.2⟩
      · rintro ⟨h | h, hS⟩
        · exact Or.inl h.symm
        · exact Or.inr ⟨h, hS⟩
    · rw [if_neg hx, ih]
      constructor
      · rintro ⟨h, hS⟩
        exact ⟨Or.inr h, hS⟩
      · rintro ⟨h | h, hS⟩
        · exact absurd (h ▸ hS) hx
        · exact ⟨h, hS⟩

/-- A selection of flags is read back from the bits of its message type. -/
theorem messageTypeOf_testBit (S : TPCANMessageTypeName → Bool) (n : TPCANMessageTypeName)
    (hn : n ≠ TPCANMessageTypeName.PCAN_MESSAGE_STANDARD) :
    (messageTypeOf S).testBit n.bitIndex = S n := by
  have hmem : n ∈ TPCANMessageTypeName.all := by cases n <;> decide
  have h := foldr_testBit_iff S TPCANMessageTypeName.all n hn
  have h1 : (messageTypeOf S).testBit n.bitIndex = true ↔ S n = true := by
    unfold messageTypeOf
    rw [h]
    exact ⟨fun h2 => h2.2, fun h2 => ⟨hmem, h2⟩⟩
  cases hS : S n
  · cases hT : (messageTypeOf S).testBit n.bitIndex
    · rfl
    · rw [h1.mp hT] at hS
      exact absurd hS (by decide)
  · exact h1.mpr hS

/-- C25: `PCAN_MESSAGE_STANDARD` is 0 and the eight other names of
`TPCANMessageType` are the single bits `2 ^ 0` to `2 ^ 7`, in declaration
order; and every byte value is the bitwise OR of exactly one selection of the
eight flags. -/
theorem messageType_flags :
    TPCANMessageTypeName.all.map TPCANMessageTypeName.value =
      [0, 2 ^ 0, 2 ^ 1, 2 ^ 2, 2 ^ 3, 2 ^ 4, 2 ^ 5, 2 ^ 6, 2 ^ 7] ∧
    ∀ b : Nat, b < 256 →
      ∃! S : TPCANMessageTypeName → Bool,
        S TPCANMessageTypeName.PCAN_MESSAGE_STANDARD = false ∧ messageTypeOf S = b := by
  refine ⟨by decide, ?_⟩
  intro b hb
  have hex : ∀ b : Nat, b < 256 →
      messageTypeOf (fun n => n != TPCANMessageTypeName.PCAN_MESSAGE_STANDARD &&
        b.testBit n.bitIndex) = b := by
    set_option maxRecDepth 100000 in decide
  refine ⟨fun n => n != TPCANMessageTypeName.PCAN_MESSAGE_STANDARD && b.testBit n.bitIndex,
    ⟨rfl, hex b hb⟩, ?_⟩
  rintro S ⟨hstd, hS⟩
  funext n
  by_cases hn : n = TPCANMessageTypeName.PCAN_MESSAGE_STANDARD
  · subst hn
    rw [hstd]
    rfl
  · have h1 := messageTypeOf_testBit S n hn
    rw [hS] at h1
    rw [← h1]
    have h2 : (n != TPCANMessageTypeName.PCAN_MESSAGE_STANDARD) = true := by
      simpa using hn
    show b.testBit n.bitIndex = (n != TPCANMessageTypeName.PCAN_MESSAGE_STANDARD &&
      b.testBit n.bitIndex)
    rw [h2, Bool.true_and]

/-- A number below `2 ^ k` does not contain the bit `2 ^ k`. -/
theorem and_two_pow_eq_zero (b k : Nat) (h : b < 2 ^ k) : b &&& 2 ^ k = 0 := by
  apply Nat.eq_of_testBit_eq
  intro i
  rw [Nat.testBit_and, Nat.testBit_two_pow, Nat.zero_testBit]
  by_cases hki : k = i
  · subst hki
    rw [Nat.testBit_lt_two_pow h]
    rfl
  · simp [hki]

/-- C26: each of the nine names the two message type enumerations share has
the same value in both; the three names only `TPCANMessageTypeXL` has are
`0x100`, `0x200` and `0x400`, the distinct single bits 8, 9 and 10; so a
`TPCANMessageType` byte, read as a 16-bit value, has a shared flag set in the
XL enumeration exactly when it has it set in the byte enumeration, and has no
XL-only flag set. -/
theorem messageTypeXL_extends :
    (∀ n : TPCANMessageTypeName, n.toXL.value = n.value) ∧
    (∀ x : TPCANMessageTypeXLName, x.isXLOnly = true ↔
      x = .PCAN_MESSAGE_XL ∨ x = .PCAN_MESSAGE_PROTOCOL_EXCEPTION ∨
        x = .PCAN_MESSAGE_ERROR_NOTIFICATION) ∧
    TPCANMessageTypeXL.PCAN_MESSAGE_XL = 0x100 ∧
    TPCANMessageTypeXL.PCAN_MESSAGE_PROTOCOL_EXCEPTION = 0x200 ∧
    TPCANMessageTypeXL.PCAN_MESSAGE_ERROR_NOTIFICATION = 0x400 ∧
    TPCANMessageTypeXL.PCAN_MESSAGE_XL = 2 ^ 8 ∧
    TPCANMessageTypeXL.PCAN_MESSAGE_PROTOCOL_EXCEPTION = 2 ^ 9 ∧
    TPCANMessageTypeXL.PCAN_MESSAGE_ERROR_NOTIFICATION = 2 ^ 10 ∧
    ∀ b : Nat, b < 256 →
      (∀ n : TPCANMessageTypeName,
        (b &&& n.toXL.value = n.toXL.value ↔ b &&& n.value = n.value)) ∧
      (∀ x : TPCANMessageTypeXLName, x.isXLOnly = true → b &&& x.value = 0) := by
  have hshared : ∀ n : TPCANMessageTypeName, n.toXL.value = n.value := by
    intro n
    cases n <;> rfl
  refine ⟨hshared, ?_, by decide, by decide, by decide, by decide, by decide, by decide, ?_⟩
  · intro x
    cases x <;> decide
  · intro b hb
    refine ⟨fun n => by rw [hshared n], ?_⟩
    intro x
    cases x
    case PCAN_MESSAGE_XL =>
      intro _
      exact and_two_pow_eq_zero b 8 hb
    case PCAN_MESSAGE_PROTOCOL_EXCEPTION =>
      intro _
      exact and_two_pow_eq_zero b 9 (by omega)
    case PCAN_MESSAGE_ERROR_NOTIFICATION =>
      intro _
      exact and_two_pow_eq_zero b 10 (by omega)
    all_goals
      intro h
      exact absurd h (by decide)

/-! ## Parameter identifiers -/

/-- C27, as stated, fails: `PCAN_BITRATE_INFO_BTR` is not obsolete, and it shares
its value 24 with another name, the alias `PCAN_BITRATE_INFO`. -/
theorem bitrate_info_btr_shares_value :
    TPCANParameterName.PCAN_BITRATE_INFO_BTR.isObsolete = false ∧
    TPCANParameterName.PCAN_BITRATE_INFO ≠ TPCANParameterName.PCAN_BITRATE_INFO_BTR ∧
    TPCANParameterName.PCAN_BITRATE_INFO.value = TPCANParameterName.PCAN_BITRATE_INFO_BTR.value ∧
    TPCANParameterName.PCAN_BITRATE_INFO_BTR.sharesValue = true := by
  decide

/-- C27, amended: the 51 names of `TPCANParameter` that are not obsolete have,
in declaration order, the values 1, 2, ..., 51; every value is above 0 and
fits in a byte; the obsolete names are `PCAN_BITRATE_INFO` (24) and
`PCAN_BUSSPEED_DATA` (27); the names that share a value with another name are
these two aliases and the two names they are defined from,
`PCAN_BITRATE_INFO_BTR` and `PCAN_BUSSPEED_FD`; and two different names with
the same value always include one of the aliases. -/
theorem parameter_values :
    TPCANParameterName.all.length = 53 ∧
    (∀ n : TPCANParameterName, n ∈ TPCANParameterName.all) ∧
    ((TPCANParameterName.all.filter (fun n => !n.isObsolete)).map TPCANParameterName.value
      = List.range' 1 51) ∧
    (∀ n : TPCANParameterName, 0 < n.value ∧ n.value < 256) ∧
    (∀ n : TPCANParameterName, n.isObsolete = true ↔
      n = .PCAN_BITRATE_INFO ∨ n = .PCAN_BUSSPEED_DATA) ∧
    TPCANParameterName.PCAN_BITRATE_INFO.value = 24 ∧
    TPCANParameterName.PCAN_BUSSPEED_DATA.value = 27 ∧
    (∀ n : TPCANParameterName, (∃ m : TPCANParameterName, m ≠ n ∧ m.value = n.value) ↔
      n = .PCAN_BITRATE_INFO ∨ n = .PCAN_BITRATE_INFO_BTR ∨
        n = .PCAN_BUSSPEED_DATA ∨ n = .PCAN_BUSSPEED_FD) ∧
    (∀ n : TPCANParameterName, n.sharesValue = true ↔
      n = .PCAN_BITRATE_INFO ∨ n = .PCAN_BITRATE_INFO_BTR ∨
        n = .PCAN_BUSSPEED_DATA ∨ n = .PCAN_BUSSPEED_FD) ∧
    (∀ a b : TPCANParameterName, a ≠ b → a.value = b.value →
      a.isObsolete = true ∨ b.isObsolete = true) := by
  have hmem : ∀ n : TPCANParameterName, n ∈ TPCANParameterName.all := by
    intro n
    cases n <;> decide
  have hpair : ∀ a ∈ TPCANParameterName.all, ∀ b ∈ TPCANParameterName.all,
      a ≠ b → a.value = b.value →
        (a.isObsolete = true ∨ b.isObsolete = true) ∧
        (b = .PCAN_BITRATE_INFO ∨ b = .PCAN_BITRATE_INFO_BTR ∨
          b = .PCAN_BUSSPEED_DATA ∨ b = .PCAN_BUSSPEED_FD) := by
    set_option maxRecDepth 100000 in decide
  refine ⟨by decide, hmem, by decide, ?_, ?_, by decide, by decide, ?_, ?_, ?_⟩
  · intro n
    cases n <;> decide
  · intro n
    cases n <;> decide
  · intro n
    constructor
    · rintro ⟨m, hne, hv⟩
      exact (hpair m (hmem m) n (hmem n) hne hv).2
    · rintro (h | h | h | h)
      · exact ⟨.PCAN_BITRATE_INFO_BTR, by rw [h]; decide, by rw [h]; decide⟩
      · exact ⟨.PCAN_BITRATE_INFO, by rw [h]; decide, by rw [h]; decide⟩
      · exact ⟨.PCAN_BUSSPEED_FD, by rw [h]; decide, by rw [h]; decide⟩
      · exact ⟨.PCAN_BUSSPEED_DATA, by rw [h]; decide, by rw [h]; decide⟩
  · intro n
    cases n <;> decide
  · intro a b hne hv
    exact (hpair a (hmem a) b (hmem b) hne hv).1

/-! ## Monotonicity of the timestamp total -/

/-- C28: for timestamps whose `micros` is within `0..999` (and whose other
members are within the range of their types) the documented total is strictly
increasing in the lexicographic order on `(millis_overflow, millis, micros)`:
one timestamp precedes another exactly when its total is smaller; and two
such timestamps with the same total are equal member by member. -/
theorem totalMicroseconds_strictMono (a b : TPCANTimestamp)
    (ha : a.isDocumented) (hb : b.isDocumented) :
    (a.lexLt b → a.totalMicroseconds < b.totalMicroseconds) ∧
    (a.totalMicroseconds < b.totalMicroseconds → a.lexLt b) ∧
    (a.totalMicroseconds = b.totalMicroseconds → a = b) := by
  obtain ⟨⟨ha1, ha2, ha3⟩, ha4⟩ := ha
  obtain ⟨⟨hb1, hb2, hb3⟩, hb4⟩ := hb
  cases a with
  | mk am ao au =>
    cases b with
    | mk bm bo bu =>
      simp only [TPCANTimestamp.lexLt, TPCANTimestamp.totalMicroseconds,
        TPCANTimestamp.mk.injEq] at *
      norm_num at ha1 hb1
      refine ⟨?_, ?_, ?_⟩
      · intro h
        omega
      · intro h
        omega
      · intro h
        omega

/-- Witness for C28: the last microsecond before `millis` rolls over, and the
first one after. -/
theorem totalMicroseconds_strictMono_witness :
    ((⟨2 ^ 32 - 1, 0, 999⟩ : TPCANTimestamp).isDocumented ∧
      (⟨0, 1, 0⟩ : TPCANTimestamp).isDocumented) ∧
    ((⟨2 ^ 32 - 1, 0, 999⟩ : TPCANTimestamp).lexLt ⟨0, 1, 0⟩ →
      (⟨2 ^ 32 - 1, 0, 999⟩ : TPCANTimestamp).totalMicroseconds <
        (⟨0, 1, 0⟩ : TPCANTimestamp).totalMicroseconds) ∧
    ((⟨2 ^ 32 - 1, 0, 999⟩ : TPCANTimestamp).totalMicroseconds <
        (⟨0, 1, 0⟩ : TPCANTimestamp).totalMicroseconds →
      (⟨2 ^ 32 - 1, 0, 999⟩ : TPCANTimestamp).lexLt ⟨0, 1, 0⟩) ∧
    ((⟨2 ^ 32 - 1, 0, 999⟩ : TPCANTimestamp).totalMicroseconds =
        (⟨0, 1, 0⟩ : TPCANTimestamp).totalMicroseconds →
      (⟨2 ^ 32 - 1, 0, 999⟩ : TPCANTimestamp) = ⟨0, 1, 0⟩) :=
  ⟨by decide, totalMicroseconds_strictMono ⟨2 ^ 32 - 1, 0, 999⟩ ⟨0, 1, 0⟩ (by decide) (by decide)⟩

end Peak.Can.Basic
